import Mathlib

/-!
# Nestronic menu system (`software/esp32/main/main_menu.c`)

A shallow embedding of the list codec `find_list_option` and of the recursive
file browser `show_file_picker_impl`, with the properties of the design
specification stated and proved over it.

Conventions of the embedding

* The option list handed to `find_list_option` is a piece of memory: the list
  of its bytes, terminator included.  A pointer into it is its offset from
  `list`; `NULL` is `none`.  Reading a byte that is not in the buffer is the
  fault `Fault.oob`, so memory safety is the absence of faults.
* Every other C string (paths, titles, directory entry names) is represented
  by its content, the bytes before the terminator.
* External collaborators (display, storage, allocator, callback) are oracles
  of an environment `Env`; each oracle may depend on the history of events so
  far.  The embedding records every display call and every callback call in a
  trace.
-/

namespace Nestronic

deriving instance DecidableEq for Except

/-! ## Faults and C string primitives -/

/-- Ways in which an execution of the embedded code can leave the defined
behaviour of the embedding. -/
inductive Fault where
  /-- A byte outside the buffer was read. -/
  | oob
  /-- Arithmetic on the null pointer. -/
  | null
  /-- The recursion budget of the embedding was exhausted. -/
  | fuel
  deriving DecidableEq, Repr

/-- The delimiter of a serialized option list, `'\n'`. -/
def NL : Char := '\n'

/-- The C string terminator, `'\0'`. -/
def NUL : Char := Char.ofNat 0

/-- `UINT8_MAX` of `stdint.h`. -/
def UINT8_MAX : Nat := 255

/-- `strlen(s)` where `s` points at the first byte of `mem`: the number of
bytes before the first terminator. -/
def strlen : List Char → Except Fault Nat
  | [] => .error .oob
  | c :: cs => if c = NUL then .ok 0 else (strlen cs).map (· + 1)

/-- The scan of `strchr`: `mem` is the memory from the current position on and
`i` the offset of that position.  The result is the offset of the first byte
equal to `c`, or `none` when the terminator comes first. -/
def strchr_scan (c : Char) : List Char → Nat → Except Fault (Option Nat)
  | [], _ => .error .oob
  | x :: xs, i =>
    if x = c then .ok (some i)
    else if x = NUL then .ok none
    else strchr_scan c xs (i + 1)

/-- `strchr(list + p, c)` on the buffer `mem`. -/
def strchr (mem : List Char) (p : Nat) (c : Char) : Except Fault (Option Nat) :=
  strchr_scan c (mem.drop p) p

/-- The pointer comparison `p >= q`.  The null pointer is the address zero and
lies below every pointer into the buffer. -/
def ptr_ge : Option Nat → Option Nat → Bool
  | _, none => true
  | none, some _ => false
  | some a, some b => decide (b ≤ a)

/-- The pointer `q + 1`. -/
def ptr_succ : Option Nat → Except Fault Nat
  | some a => .ok (a + 1)
  | none => .error .null

/-! ## The list codec -/

/-- One pass through the body of the `for` loop of `find_list_option`
(lines 62-75) with loop counter `i` and cursors `p`, `q`.  The result is the
new pair of cursors and whether the body left the loop through `break`. -/
def find_list_option_body (list : List Char) (len : Nat) (option : Int) (i : Int)
    (p q : Option Nat) : Except Fault (Bool × Option Nat × Option Nat) :=
  match (if p.isNone && q.isNone then Except.ok 0 else ptr_succ q) with
  | .error e => .error e
  | .ok p1 =>
    match strchr list p1 NL with
    | .error e => .error e
    | .ok q0 =>
      let q1 := if q0.isNone && decide (i + 1 = option) then some len else q0
      if ptr_ge (some p1) q1 then .ok (true, none, none)
      else .ok (false, some p1, q1)

/-- The `for` loop of `find_list_option` (lines 61-76).  `i` is the loop
counter, `p` and `q` the two cursors; the first argument bounds the number of
iterations still allowed. -/
def find_list_option_loop (list : List Char) (len : Nat) (option : Int) :
    Nat → Int → Option Nat → Option Nat → Except Fault (Option Nat × Option Nat)
  | 0, i, p, q => if i < option then .error .fuel else .ok (p, q)
  | fuel + 1, i, p, q =>
    if i < option then
      match find_list_option_body list len option i p q with
      | .error e => .error e
      | .ok (true, p1, q1) => .ok (p1, q1)
      | .ok (false, p1, q1) => find_list_option_loop list len option fuel (i + 1) p1 q1
    else .ok (p, q)

/-- `find_list_option(list, option, &length)` (lines 56-87).  The result is
`none` for `NULL` and `some (start, length)` for the pointer `list + start`
with `*length = length`.  The loop runs at most `option` times. -/
def find_list_option (list : List Char) (option : Int) : Except Fault (Option (Nat × Nat)) :=
  match strlen list with
  | .error e => .error e
  | .ok len =>
    match find_list_option_loop list len option option.toNat 0 none none with
    | .error e => .error e
    | .ok (some p, some q) => .ok (some (p, q - p))
    | .ok _ => .ok none

/-! ## Reference notions for the codec -/

/-- The bytes of `s` before its first delimiter, and what follows that
delimiter when there is one. -/
def split_seg : List Char → List Char × Option (List Char)
  | [] => ([], none)
  | c :: cs =>
    if c = NL then ([], some cs)
    else ((c :: (split_seg cs).1), (split_seg cs).2)

/-- Walk over `n` segments of the content `s` that starts at offset `off`:
the start and length of the `n`-th one, provided that it and all segments
before it are non-empty. -/
def locate : Nat → Nat → List Char → Option (Nat × Nat)
  | 0, _, _ => none
  | n + 1, off, s =>
    if (split_seg s).1 = [] then none
    else
      match n, (split_seg s).2 with
      | 0, _ => some (off, (split_seg s).1.length)
      | _ + 1, none => none
      | m + 1, some rest => locate (m + 1) (off + (split_seg s).1.length + 1) rest

/-- Offset of the label number `j` (counted from zero) in the serialization
of `labels`. -/
def label_offset (labels : List (List Char)) (j : Nat) : Nat :=
  ((labels.take j).map (fun l => l.length + 1)).sum

/-- The serialization of `labels`: the labels joined by single delimiters,
with one more delimiter at the end when `trailing` is set. -/
def serialize (labels : List (List Char)) (trailing : Bool) : List Char :=
  [NL].intercalate labels ++ (if trailing then [NL] else [])

/-- The cursors the loop leaves behind for a result of `locate`. -/
def cursors : Option (Nat × Nat) → Option Nat × Option Nat
  | none => (none, none)
  | some (a, l) => (some a, some (a + l))

/-- Offsets of the delimiters of the content `s`, in increasing order, where
`off` is the offset of the first byte of `s`. -/
def delims : List Char → Nat → List Nat
  | [], _ => []
  | c :: cs, off => if c = NL then off :: delims cs (off + 1) else delims cs (off + 1)

/-- Offset of the `j`-th delimiter of `s` (`j ≥ 1`), when there are that many. -/
def nth_delim (s : List Char) (j : Nat) : Option Nat :=
  (delims s 0)[j - 1]?

/-- Start of the segment addressed by the ordinal `k ≥ 1`: the start of the
buffer for `k = 1`, the byte just after the `(k-1)`-th delimiter for `k > 1`. -/
def seg_start (s : List Char) (k : Nat) : Option Nat :=
  if k = 1 then some 0 else (nth_delim s (k - 1)).map (· + 1)

/-- End of the segment that starts at `st`: the next delimiter at or after
`st`, or the end of the buffer when there is none. -/
def seg_end (s : List Char) (st : Nat) : Nat :=
  st + (split_seg (s.drop st)).1.length

/-- The segment number `j` (counted from zero) of the content `s` at offset
`off`, as start and length, when `s` has at least `j` delimiters. -/
def seg_at : Nat → Nat → List Char → Option (Nat × Nat)
  | 0, off, s => some (off, (split_seg s).1.length)
  | j + 1, off, s =>
    match (split_seg s).2 with
    | none => none
    | some b => seg_at j (off + (split_seg s).1.length + 1) b

/-! ## The file browser: building the option list -/

/-- A directory entry as `scandir` delivers it: the fields `d_type` and `d_name`
of `struct dirent`, the name by its content. -/
structure dirent where
  d_type : Nat
  d_name : List Char
  deriving DecidableEq, Repr

/-- `DT_REG` of the platform's `dirent.h`; only `DT_REG ≠ DT_DIR` matters. -/
def DT_REG : Nat := 1

/-- `DT_DIR` of the platform's `dirent.h`. -/
def DT_DIR : Nat := 2

/-- `strrchr(s, c)` on the content `s` for `c ≠ '\0'`: the part of `s` from the
last occurrence of `c` on, or `none` (`NULL`) when `c` does not occur. -/
def strrchr : List Char → Char → Option (List Char)
  | [], _ => none
  | x :: xs, c =>
    match strrchr xs c with
    | some r => some r
    | none => if x = c then some (x :: xs) else none

/-- Modelled from the spec: `vpool` (vpool.h, not among the sources at hand) is
the growable byte buffer in which a Serialized Option List is built: "a single
text buffer of labels separated by one delimiter character".  The buffer is the
list of its bytes; `vpool_insert(&vp, pos, data, len)` puts the first `len`
bytes of `data` at offset `pos`. -/
def vpool_insert (vp : List Char) (pos : Nat) (data : List Char) (len : Nat) : List Char :=
  vp.take pos ++ data.take len ++ vp.drop pos

/-- `vpool_get_length(&vp)`. -/
def vpool_get_length (vp : List Char) : Nat := vp.length

/-- `vpool_is_empty(&vp)`. -/
def vpool_is_empty (vp : List Char) : Bool := vp.isEmpty

/-- The body of `if (count < UINT8_MAX - 2)` in `show_file_picker_impl`
(lines 115-124): the entry `namelist[i]` is appended to the pool when it is a
regular file whose `strrchr(d_name, '.')` compares equal to `".vgm"` or `".vgz"`,
or a directory whose `d_name[0]` is not `'.'`. -/
def show_file_picker_insert (vp : List Char) (e : dirent) : List Char :=
  if e.d_type = DT_REG then
    match strrchr e.d_name '.' with
    | some dot =>
      if dot = ".vgm".toList ∨ dot = ".vgz".toList then
        let vp1 := vpool_insert vp (vpool_get_length vp) e.d_name e.d_name.length
        vpool_insert vp1 (vpool_get_length vp1) "\n".toList 1
      else vp
    | none => vp
  else if e.d_type = DT_DIR ∧ e.d_name.headD NUL ≠ '.' then
    let vp1 := vpool_insert vp (vpool_get_length vp) e.d_name e.d_name.length
    vpool_insert vp1 (vpool_get_length vp1) "/\n".toList 2
  else vp

/-- The `for` loop of `show_file_picker_impl` over `namelist` (lines 112-128),
from the entry `namelist[i]` on: `count` is the counter of the source, which is
incremented on every pass, and `vp` the pool. -/
def show_file_picker_build : List dirent → Nat → List Char → List Char
  | [], _, vp => vp
  | e :: es, count, vp =>
    show_file_picker_build es (count + 1)
      (if count < UINT8_MAX - 2 then show_file_picker_insert vp e else vp)

/-- The option list of `show_file_picker_impl` (lines 137-139) for a non-empty
pool: `list[len - 1] = '\0'`. -/
def show_file_picker_list (namelist : List dirent) : List Char :=
  let vp := show_file_picker_build namelist 0 []
  vp.set (vpool_get_length vp - 1) NUL

/-- Whether `show_file_picker_impl` accepts an entry: a regular file whose name
from its last `'.'` on is `.vgm` or `.vgz`, or a directory whose name does not
begin with `'.'`. -/
def accepted (e : dirent) : Bool :=
  (decide (e.d_type = DT_REG) &&
    (decide (strrchr e.d_name '.' = some ".vgm".toList) ||
     decide (strrchr e.d_name '.' = some ".vgz".toList))) ||
  (decide (e.d_type = DT_DIR) && decide (e.d_name.head? ≠ some '.'))

/-- The label under which an accepted entry is listed: its name, followed by
`'/'` for a directory. -/
def label (e : dirent) : List Char :=
  if e.d_type = DT_DIR then e.d_name ++ ['/'] else e.d_name

/-- The pool after the labels `labels` were inserted, each followed by one
delimiter. -/
def pool_of : List (List Char) → List Char
  | [] => []
  | l :: ls => l ++ NL :: pool_of ls

/-- The entries that `show_file_picker_impl` keeps: the accepted ones among the
first `UINT8_MAX - 2` entries of the scan. -/
def kept (namelist : List dirent) : List dirent :=
  (namelist.take (UINT8_MAX - 2)).filter accepted

/-! ## The file browser: the selection loop -/

/-- The calls on collaborators that the embedding records. -/
inductive Event where
  /-- The call `display_selection_list(title, option, list)`. -/
  | selection_list (title : List Char) (option : Nat) (list : List Char)
  /-- The call `display_message(title, body1, body2, options)`. -/
  | message (title : String) (body1 body2 : Option String) (options : String)
  /-- The call `cb(filename)` of the per-file callback. -/
  | callback (filename : List Char)
  /-- The call `display_static_list(title, list)`. -/
  | static_list (title : String) (list : List Char)
  /-- The call `display_static_message(title, body1, body2)`. -/
  | static_message (title : String) (body1 body2 : Option String)
  /-- The call `display_draw_time(hh, mm, twentyfour, alarm)`. -/
  | draw_time (hh mm : Int) (twentyfour alarm : Bool)
  /-- Another call that draws on the display, such as `display_clear()`, by its
  name and its arguments. -/
  | draw (name : String) (args : List Int)
  /-- A call of one of the entry screens `display_input_text`,
  `display_input_value` and `display_set_time`, by its name and its title. -/
  | entry (name : String) (title : List Char)
  /-- The call `keypad_wait_for_event(&event, timeout)`. -/
  | keypad_wait (timeout : Int)
  /-- A call of a collaborator other than display and keypad (player, settings,
  Wi-Fi, clock, converter, scheduler), by its name and its arguments. -/
  | call (name : String) (args : List Int)
  /-- The calls `xSemaphoreTake(clock_mutex, portMAX_DELAY)` (`true`) and
  `xSemaphoreGive(clock_mutex)` (`false`). -/
  | semaphore (take : Bool)
  deriving DecidableEq, Repr

/-- The file-scope flags of `main_menu.c` (lines 38-41) and the trace of the
recorded calls. -/
structure State where
  menu_visible : Bool
  alarm_set : Bool
  time_twentyfour : Bool
  menu_timeout : Bool
  trace : List Event
  deriving DecidableEq, Repr

/-- Record a call. -/
def State.log (st : State) (e : Event) : State :=
  { st with trace := st.trace ++ [e] }

/-- The collaborators of the file browser.  Every oracle receives the trace
at the time of the call, so that its answers may change from call to call. -/
structure Env where
  /-- The entries of the directory `path` in directory order; `none` when the
  directory cannot be opened. -/
  readdir : List Event → List Char → Option (List dirent)
  /-- `sdcard_is_detected()`. -/
  sdcard_is_detected : List Event → Bool
  /-- `sdcard_is_mounted()`. -/
  sdcard_is_mounted : List Event → Bool
  /-- The value of `display_selection_list(title, option, list)`. -/
  display_selection_list : List Event → List Char → Nat → List Char → Nat
  /-- Whether `malloc(size)` returns a buffer rather than `NULL`. -/
  malloc : List Event → Nat → Bool
  /-- Whether `strndup(s, n)` returns a buffer rather than `NULL`. -/
  strndup : List Event → List Char → Nat → Bool

/-- The order of `strcmp` on contents: byte-wise lexicographic. -/
def strcmp_le : List Char → List Char → Bool
  | [], _ => true
  | _ :: _, [] => false
  | a :: as, b :: bs =>
    if a.toNat < b.toNat then true
    else if b.toNat < a.toNat then false
    else strcmp_le as bs

/-- The order of `alphasort`, which compares `d_name` with `strcoll`; in the C
locale that is the order of `strcmp`. -/
def alphasort (a b : dirent) : Bool := strcmp_le a.d_name b.d_name

/-- The call `scandir(path, &namelist, NULL, alphasort)` (line 98): `none` for
`n < 0`, else all entries of the directory, sorted by `alphasort`. -/
def scandir (env : Env) (hist : List Event) (path : List Char) : Option (List dirent) :=
  (env.readdir hist path).map (List.insertionSort (fun a b => alphasort a b = true))

/-- How one pass through the body of the `do ... while` loop of
`show_file_picker_impl` ends. -/
inductive Flow where
  /-- Through `break`, with this value of `filename_result`. -/
  | brk (filename_result : Option (List Char))
  /-- At the loop condition, with `filename_result` still `NULL`. -/
  | next
  deriving DecidableEq, Repr

/-- The body of the `do ... while` loop of `show_file_picker_impl` after the call
of `display_selection_list` (lines 146-185).  `option` is the value that call
returned, `st` the state after it, and `recurse` the recursive call of
`show_file_picker_impl` with the same callback.  The callback `cb`, when there
is one, is a function of the trace and of the file name: it returns its `bool`
and, like `main_menu_file_picker_cb`, does not write the flags of the menu. -/
def show_file_picker_body (env : Env) (cb : Option (List Event → List Char → Bool))
    (recurse : List Char → List Char → State → Except Fault (Option (List Char) × State))
    (path list : List Char) (option : Nat) (st : State) : Except Fault (Flow × State) :=
  if option = UINT8_MAX then .ok (.brk none, { st with menu_timeout := true })
  else
    match find_list_option list option with
    | .error e => .error e
    | .ok none => .ok (.next, st)
    | .ok (some (value, file_len)) =>
      if env.malloc st.trace (path.length + file_len + 2) = false then .ok (.brk none, st)
      else if (path ++ '/' :: (list.drop value).take file_len)[path.length + file_len]?
          = some '/' then
        if env.strndup st.trace (list.drop value) file_len = false then .ok (.brk none, st)
        else
          match recurse ((list.drop value).take file_len)
              ((path ++ '/' :: (list.drop value).take file_len).take (path.length + file_len))
              st with
          | .error e => .error e
          | .ok (some r, st2) => .ok (.brk (some r), st2)
          | .ok (none, st2) => .ok (.next, st2)
      else
        match cb with
        | some f =>
          if f st.trace (path ++ '/' :: (list.drop value).take file_len) then
            .ok (.brk none, st.log (.callback (path ++ '/' :: (list.drop value).take file_len)))
          else
            .ok (.next, st.log (.callback (path ++ '/' :: (list.drop value).take file_len)))
        | none => .ok (.brk (some (path ++ '/' :: (list.drop value).take file_len)), st)

/-- The `do ... while` loop of `show_file_picker_impl` (lines 142-186).  `option`
is the ordinal handed to `display_selection_list`, whose value is a `uint8_t`;
the first argument bounds the number of passes. -/
def show_file_picker_loop (env : Env) (cb : Option (List Event → List Char → Bool))
    (recurse : List Char → List Char → State → Except Fault (Option (List Char) × State)) :
    Nat → List Char → List Char → List Char → Nat → State →
      Except Fault (Option (List Char) × State)
  | 0, _, _, _, _, _ => .error .fuel
  | fuel + 1, title, path, list, option, st =>
    match show_file_picker_body env cb recurse path list
        (env.display_selection_list st.trace title option list % 256)
        (st.log (.selection_list title option list)) with
    | .error e => .error e
    | .ok (.brk r, st1) => .ok (r, st1)
    | .ok (.next, st1) =>
      if 0 < env.display_selection_list st.trace title option list % 256
          ∧ st1.menu_timeout = false then
        show_file_picker_loop env cb recurse fuel title path list
          (env.display_selection_list st.trace title option list % 256) st1
      else .ok (none, st1)

/-- `show_file_picker_impl(title, path, cb)` (lines 91-191).  The result is the
value of `filename_result` and the state at the return; the first argument
bounds the nesting depth and the number of passes of each loop. -/
def show_file_picker_impl (env : Env) (cb : Option (List Event → List Char → Bool)) :
    Nat → List Char → List Char → State → Except Fault (Option (List Char) × State)
  | 0, _, _, _ => .error .fuel
  | fuel + 1, title, path, st =>
    match scandir env st.trace path with
    | none =>
      if env.sdcard_is_detected st.trace = false then
        .ok (none, st.log (.message "Error" (some "SD card was not detected") none " OK "))
      else if env.sdcard_is_mounted st.trace = false then
        .ok (none, st.log (.message "Error" (some "SD card could not be accessed") none " OK "))
      else
        .ok (none, st.log (.message "Error" (some "Could not open the directory") none " OK "))
    | some namelist =>
      if vpool_is_empty (show_file_picker_build namelist 0 []) then
        .ok (none, st.log (.message "Error" (some "No files found") none " OK "))
      else
        show_file_picker_loop env cb (show_file_picker_impl env cb fuel) fuel title path
          (show_file_picker_list namelist) 1 st

/-- `show_file_picker(title, cb)` (lines 193-196). -/
def show_file_picker (env : Env) (cb : Option (List Event → List Char → Bool))
    (fuel : Nat) (title : List Char) (st : State) :
    Except Fault (Option (List Char) × State) :=
  show_file_picker_impl env cb fuel title "/sdcard".toList st

/-! ## The menu screens: collaborators -/

/-- `ESP_OK` of `esp_err.h`. -/
def ESP_OK : Nat := 0

/-- `ESP_ERR_TIMEOUT` of `esp_err.h`. -/
def ESP_ERR_TIMEOUT : Nat := 0x107

/-- Modelled from the spec: the key identifiers of `keypad.h` (not among the
sources at hand), "key identifier" of the input collaborator; only the
identifiers that `main_menu.c` names are told apart. -/
inductive keypad_key_t where
  | KEYPAD_BUTTON_UP
  | KEYPAD_BUTTON_DOWN
  | KEYPAD_BUTTON_LEFT
  | KEYPAD_BUTTON_RIGHT
  | KEYPAD_BUTTON_A
  | KEYPAD_BUTTON_B
  | KEYPAD_BUTTON_START
  | KEYPAD_BUTTON_SELECT
  | KEYPAD_TOUCH
  deriving DecidableEq, Repr

/-- The fields `key` and `pressed` of `keypad_event_t`. -/
structure keypad_event_t where
  key : keypad_key_t
  pressed : Bool
  deriving DecidableEq, Repr

/-- The fields `ssid`, `bssid`, `rssi` and `authmode` of `wifi_ap_record_t`. -/
structure wifi_ap_record_t where
  ssid : List Char
  bssid : List Nat
  rssi : Int
  authmode : Nat
  deriving DecidableEq, Repr

/-- `WIFI_AUTH_OPEN` of `esp_wifi_types.h`. -/
def WIFI_AUTH_OPEN : Nat := 0

/-- `WIFI_AUTH_WEP`. -/
def WIFI_AUTH_WEP : Nat := 1

/-- `WIFI_AUTH_WPA_PSK`. -/
def WIFI_AUTH_WPA_PSK : Nat := 2

/-- `WIFI_AUTH_WPA2_PSK`. -/
def WIFI_AUTH_WPA2_PSK : Nat := 3

/-- `WIFI_AUTH_WPA_WPA2_PSK`. -/
def WIFI_AUTH_WPA_WPA2_PSK : Nat := 4

/-- `WIFI_AUTH_WPA2_ENTERPRISE`. -/
def WIFI_AUTH_WPA2_ENTERPRISE : Nat := 5

/-- The collaborators of the menu screens, in addition to those of the file
browser.  Every oracle receives the trace at the time of the call.  A status is
an `esp_err_t`; a pointer result is `none` for `NULL`. -/
structure MenuEnv extends Env where
  /-- `MENU_TIMEOUT_MS`, a constant of a header that is not at hand. -/
  MENU_TIMEOUT_MS : Int := 30000
  /-- The value of `display_message(title, body1, body2, options)`. -/
  display_message : List Event → String → Option String → Option String → String → Nat :=
    fun _ _ _ _ _ => 0
  /-- Status and event of `keypad_wait_for_event(&event, timeout)`. -/
  keypad_wait_for_event : List Event → Int → Nat × keypad_event_t :=
    fun _ _ => (ESP_ERR_TIMEOUT, ⟨.KEYPAD_BUTTON_B, false⟩)
  /-- `display_get_contrast()`. -/
  display_get_contrast : List Event → Nat := fun _ => 0
  /-- Status and value of `keypad_touch_pad_test(&val)`. -/
  keypad_touch_pad_test : List Event → Nat × Nat := fun _ => (ESP_OK, 0)
  /-- `adc1_get_raw(pin)`, the pin by its name. -/
  adc1_get_raw : List Event → String → Int := fun _ _ => 0
  /-- `settings_get_alarm_time(&hh, &mm)`: the two values when the status is
  `ESP_OK`. -/
  settings_get_alarm_time : List Event → Option (Nat × Nat) := fun _ => none
  /-- `display_set_time(&hh, &mm, false)`: its value and the two values it
  leaves. -/
  display_set_time : List Event → Nat → Nat → Bool × Nat × Nat := fun _ hh mm => (false, hh, mm)
  /-- The value of `display_input_text(title, &text)` and the text it leaves. -/
  display_input_text : List Event → List Char → Option (List Char) → Nat × Option (List Char) :=
    fun _ _ text => (0, text)
  /-- The value of `display_input_value(...)` and the value it leaves. -/
  display_input_value : List Event → Nat → Nat × Nat := fun _ v => (0, v)
  /-- The status of a call of which only the status is used, by the name of the
  called function: `settings_set_time_format`, `settings_set_time_zone`,
  `settings_set_ntp_server`, `wifi_handler_connect`, `board_rtc_calibration`. -/
  status : List Event → String → Nat := fun _ _ => ESP_OK
  /-- `wifi_handler_scan(&records, &record_count)`: its status and the array
  of `record_count` records it leaves. -/
  wifi_handler_scan : List Event → Nat × Option (List wifi_ap_record_t) :=
    fun _ => (ESP_OK, none)
  /-- `esp_wifi_get_mac(ESP_IF_WIFI_STA, mac)`: the six bytes when the status
  is `ESP_OK`, else the status. -/
  esp_wifi_get_mac : List Event → Except Nat (List Nat) := fun _ => .error 1
  /-- `tcpip_adapter_get_ip_info(TCPIP_ADAPTER_IF_STA, &ip_info)`: the four
  bytes each of `ip`, `netmask` and `gw` when the status is `ESP_OK`. -/
  tcpip_adapter_get_ip_info : List Event → Option (List Nat × List Nat × List Nat) :=
    fun _ => none
  /-- `zoneinfo_build_region_list()`. -/
  zoneinfo_build_region_list : List Event → Option (List Char) := fun _ => none
  /-- `zoneinfo_build_region_zone_list(region)`. -/
  zoneinfo_build_region_zone_list : List Event → List Char → Option (List Char) :=
    fun _ _ => none
  /-- `zoneinfo_get_tz(zone)`. -/
  zoneinfo_get_tz : List Event → List Char → Option (List Char) := fun _ _ => none
  /-- Status and host name of `settings_get_ntp_server(&hostname)`. -/
  settings_get_ntp_server : List Event → Nat × Option (List Char) := fun _ => (ESP_OK, none)
  /-- `time_handler_sntp_getservername()`. -/
  time_handler_sntp_getservername : List Event → Option (List Char) := fun _ => none
  /-- Whether `strdup(s)` returns a buffer rather than `NULL`. -/
  strdup : List Event → List Char → Bool := fun _ _ => true
  /-- `settings_get_rtc_trim(&coarse, &value)`: the two values when the status
  is `ESP_OK`. -/
  settings_get_rtc_trim : List Event → Option (Bool × Nat) := fun _ => none
  /-- `board_rtc_get_time(&time)`: the time when the status is `ESP_OK`. -/
  board_rtc_get_time : List Event → Option Int := fun _ => none
  /-- `localtime_r(&time, &timeinfo)`: the fields `tm_hour` and `tm_min` of
  `timeinfo` when the result is not `NULL`. -/
  localtime_r : List Event → Int → Option (Int × Int) := fun _ _ => none

/-- A string literal as memory: its bytes and the terminator. -/
def cstr (s : String) : List Char := s.toList ++ [NUL]

/-! ## The menu screens: formatted output -/

/-- The text that `sprintf` writes for a conversion `%d` with a field width
(`%5d`), and with the space flag when `space` is set (`% 4d`). -/
def fmt_d (n : Int) (width : Nat) (space : Bool) : List Char :=
  let body := (if n < 0 then ['-'] else if space then [' '] else [])
    ++ Nat.toDigits 10 n.natAbs
  List.replicate (width - body.length) ' ' ++ body

/-- The text that `sprintf` writes for the conversion `%02X`. -/
def fmt_02X (n : Nat) : List Char :=
  let body := (Nat.toDigits 16 n).map Char.toUpper
  List.replicate (2 - body.length) '0' ++ body

/-- The text that `sprintf` writes for the conversion `%22.22s`: at most 22
bytes of the string, padded with spaces on the left to 22 bytes. -/
def fmt_22s (s : List Char) : List Char :=
  List.replicate (22 - (s.take 22).length) ' ' ++ s.take 22

/-- The text of `"%02X:%02X:%02X:%02X:%02X:%02X"` for six bytes. -/
def fmt_mac (b : List Nat) : List Char :=
  fmt_02X (b.getD 0 0) ++ ':' :: fmt_02X (b.getD 1 0) ++ ':' :: fmt_02X (b.getD 2 0) ++ ':' ::
    fmt_02X (b.getD 3 0) ++ ':' :: fmt_02X (b.getD 4 0) ++ ':' :: fmt_02X (b.getD 5 0)

/-- The number of bytes that the `sprintf` of `wifi_scan_connect` (lines
490-492) writes into `bssid[17]`: the text and the terminator. -/
def wifi_scan_bssid_size (b : List Nat) : Nat := (fmt_mac b).length + 1

/-- The text of `IPSTR` (`"%d.%d.%d.%d"`) for the four bytes of `IP2STR`. -/
def fmt_ip (b : List Nat) : List Char :=
  Nat.toDigits 10 (b.getD 0 0) ++ '.' :: Nat.toDigits 10 (b.getD 1 0) ++ '.' ::
    Nat.toDigits 10 (b.getD 2 0) ++ '.' :: Nat.toDigits 10 (b.getD 3 0)

/-! ## The menu screens: demo and diagnostics -/

/-- `main_menu_keypad_wait(&event)` (lines 43-54): the status, the event and the
state it leaves. -/
def main_menu_keypad_wait (env : MenuEnv) (st : State) : Nat × keypad_event_t × State :=
  if (env.keypad_wait_for_event st.trace env.MENU_TIMEOUT_MS).1 = ESP_ERR_TIMEOUT then
    (ESP_OK, ⟨.KEYPAD_BUTTON_B, true⟩,
      { st.log (.keypad_wait env.MENU_TIMEOUT_MS) with menu_timeout := true })
  else
    ((env.keypad_wait_for_event st.trace env.MENU_TIMEOUT_MS).1,
      (env.keypad_wait_for_event st.trace env.MENU_TIMEOUT_MS).2,
      st.log (.keypad_wait env.MENU_TIMEOUT_MS))

/-- `main_menu_file_picker_cb(filename)` (lines 205-256).  It plays the file and
shows its tags through calls on the player and the display, which the embedding
records as the one call of the callback, and returns `false` ("Remain in the
picker"). -/
def main_menu_file_picker_cb (_hist : List Event) (_filename : List Char) : Bool := false

/-- `main_menu_demo_playback()` (lines 258-261).  The first argument is the
budget handed to every loop that the screen runs. -/
def main_menu_demo_playback (env : MenuEnv) (n : Nat) (st : State) : Except Fault State :=
  match show_file_picker env.toEnv (some main_menu_file_picker_cb) n "Demo Playback".toList st with
  | .error e => .error e
  | .ok (_, st1) => .ok st1

/-- The action table of `main_menu_demo_sound_effects` (lines 274-282). -/
def main_menu_demo_sound_effects_dispatch (option : Nat) (st : State) : State :=
  if option = 1 then st.log (.call "vgm_player_play_chime" [])
  else if option = 2 then st.log (.call "vgm_player_play_blip" [])
  else if option = 3 then st.log (.call "vgm_player_play_credit" [])
  else if option = UINT8_MAX then { st with menu_timeout := true }
  else st

/-- One pass through the loop body of `main_menu_demo_sound_effects` (lines
268-282): the value of `option` and the state it leaves. -/
def main_menu_demo_sound_effects_pass (env : MenuEnv) (option : Nat) (st : State) :
    Nat × State :=
  (env.display_selection_list st.trace "Demo Sound Effects".toList option
      (cstr "Chime\nBlip\nCredit") % 256,
    main_menu_demo_sound_effects_dispatch
      (env.display_selection_list st.trace "Demo Sound Effects".toList option
        (cstr "Chime\nBlip\nCredit") % 256)
      (st.log (.selection_list "Demo Sound Effects".toList option (cstr "Chime\nBlip\nCredit"))))

/-- The `do ... while (option > 0 && !menu_timeout)` loop of
`main_menu_demo_sound_effects` (lines 267-283). -/
def main_menu_demo_sound_effects_loop (env : MenuEnv) : Nat → Nat → State → Except Fault State
  | 0, _, _ => .error .fuel
  | fuel + 1, option, st =>
    if 0 < (main_menu_demo_sound_effects_pass env option st).1
        ∧ (main_menu_demo_sound_effects_pass env option st).2.menu_timeout = false then
      main_menu_demo_sound_effects_loop env fuel
        (main_menu_demo_sound_effects_pass env option st).1
        (main_menu_demo_sound_effects_pass env option st).2
    else .ok (main_menu_demo_sound_effects_pass env option st).2

/-- `main_menu_demo_sound_effects()` (lines 263-284). -/
def main_menu_demo_sound_effects (env : MenuEnv) (n : Nat) (st : State) : Except Fault State :=
  main_menu_demo_sound_effects_loop env n 1 st

/-- One pass through the `while (1)` loop of `diagnostics_display` (lines
294-321) with the locals `option` and `contrast`, both `uint8_t`: whether the
pass left the loop through `break`, and the locals and the state it leaves. -/
def diagnostics_display_pass (env : MenuEnv) (option contrast : Nat) (st : State) :
    Bool × Nat × Nat × State :=
  let st1 :=
    if option = 0 then st.log (.draw "display_draw_test_pattern" [0])
    else if option = 1 then st.log (.draw "display_draw_test_pattern" [1])
    else if option = 2 then st.log (.draw "display_draw_logo" [])
    else st
  let r := main_menu_keypad_wait env st1
  if r.1 = ESP_OK then
    if r.2.1.pressed = true then
      if r.2.1.key = .KEYPAD_BUTTON_UP then
        (false, option, (contrast + 16) % 256,
          r.2.2.log (.draw "display_set_contrast" [(((contrast + 16) % 256 : Nat) : Int)]))
      else if r.2.1.key = .KEYPAD_BUTTON_DOWN then
        (false, option, (contrast + 256 - 16) % 256,
          r.2.2.log (.draw "display_set_contrast" [(((contrast + 256 - 16) % 256 : Nat) : Int)]))
      else if r.2.1.key = .KEYPAD_BUTTON_LEFT then
        (false, (if option = 0 then 2 else (option + 256 - 1) % 256), contrast, r.2.2)
      else if r.2.1.key = .KEYPAD_BUTTON_RIGHT then
        (false, (if option = 2 then 0 else (option + 1) % 256), contrast, r.2.2)
      else if r.2.1.key = .KEYPAD_BUTTON_B then (true, option, contrast, r.2.2)
      else (false, option, contrast, r.2.2)
    else (false, option, contrast, r.2.2)
  else (false, option, contrast, r.2.2)

/-- The `while (1)` loop of `diagnostics_display` (lines 293-322). -/
def diagnostics_display_loop (env : MenuEnv) : Nat → Nat → Nat → State → Except Fault State
  | 0, _, _, _ => .error .fuel
  | fuel + 1, option, contrast, st =>
    if (diagnostics_display_pass env option contrast st).1 = true then
      .ok (diagnostics_display_pass env option contrast st).2.2.2
    else
      diagnostics_display_loop env fuel
        (diagnostics_display_pass env option contrast st).2.1
        (diagnostics_display_pass env option contrast st).2.2.1
        (diagnostics_display_pass env option contrast st).2.2.2

/-- `diagnostics_display()` (lines 286-325). -/
def diagnostics_display (env : MenuEnv) (n : Nat) (st : State) : Except Fault State :=
  match diagnostics_display_loop env n 0 (env.display_get_contrast st.trace % 256)
      (st.log (.call "keypad_clear_events" [])) with
  | .error e => .error e
  | .ok st1 =>
    .ok (st1.log (.draw "display_set_contrast"
      [((env.display_get_contrast st.trace % 256 : Nat) : Int)]))

/-- The end of a pass of one of the polling loops of the diagnostics screens
(lines 341-355, 390-404, 424-438) after the status `ret` and the event of
`keypad_wait_for_event(&keypad_event, step)`: whether the pass left the loop
through `break`, the value of `msec_elapsed` and the state.  With `touch` set
the press of `KEYPAD_TOUCH` does not leave the loop (line 345). -/
def diagnostics_poll (env : MenuEnv) (touch : Bool) (step : Int) (msec_elapsed : Int)
    (ret : Nat) (event : keypad_event_t) (st : State) : Bool × Int × State :=
  if ret = ESP_OK then
    if event.pressed = true ∧ (touch = false ∨ event.key ≠ .KEYPAD_TOUCH) then (true, 0, st)
    else (false, 0, st)
  else if ret = ESP_ERR_TIMEOUT then
    if msec_elapsed + step ≥ env.MENU_TIMEOUT_MS then
      (true, msec_elapsed + step, { st with menu_timeout := true })
    else (false, msec_elapsed + step, st)
  else (false, msec_elapsed, st)

/-- The `while (1)` loop of `diagnostics_touch` (lines 331-356). -/
def diagnostics_touch_loop (env : MenuEnv) : Nat → Int → State → Except Fault State
  | 0, _, _ => .error .fuel
  | fuel + 1, msec_elapsed, st =>
    if (env.keypad_touch_pad_test st.trace).1 ≠ ESP_OK then .ok st
    else
      match diagnostics_poll env true 100 msec_elapsed
          (env.keypad_wait_for_event
            (st.trace ++ [.static_list "Capacitive Touch"
              ("Default time: ".toList ++ fmt_d (env.keypad_touch_pad_test st.trace).2 5 false)])
            100).1
          (env.keypad_wait_for_event
            (st.trace ++ [.static_list "Capacitive Touch"
              ("Default time: ".toList ++ fmt_d (env.keypad_touch_pad_test st.trace).2 5 false)])
            100).2
          ((st.log (.static_list "Capacitive Touch"
              ("Default time: ".toList ++ fmt_d (env.keypad_touch_pad_test st.trace).2 5 false))).log
            (.keypad_wait 100)) with
      | (true, _, st1) => .ok st1
      | (false, msec1, st1) => diagnostics_touch_loop env fuel msec1 st1

/-- `diagnostics_touch()` (lines 327-357). -/
def diagnostics_touch (env : MenuEnv) (n : Nat) (st : State) : Except Fault State :=
  diagnostics_touch_loop env n 0 st

/-- The value of an `int` of 32 bits: the representative of `x` modulo `2^32`
between `-2^31` and `2^31 - 1`. -/
def wrap_int (x : Int) : Int := (x + 2147483648) % 4294967296 - 2147483648

/-- One of the two `for` loops of `diagnostics_ambient_light` (lines 371-374,
377-380): `k` passes of `vTaskDelay` and `adc1_get_raw(ADC1_LUM_PIN)`, added to
`acc`.  The reading and the sum are `int`: the sum is taken modulo `2^32`, as the
target adds. -/
def adc_sum (env : MenuEnv) : Nat → Int → State → Int × State
  | 0, acc, st => (acc, st)
  | k + 1, acc, st =>
    adc_sum env k
      (wrap_int (acc
        + wrap_int (env.adc1_get_raw (st.trace ++ [.call "vTaskDelay" []]) "ADC1_LUM_PIN")))
      (st.log (.call "vTaskDelay" []))

/-- The text of the buffer of `diagnostics_ambient_light` (lines 382-386); `/`
of C is the division that truncates. -/
def ambient_light_text (adc_val1 adc_val2 : Int) : List Char :=
  "  0 dB: ".toList ++ fmt_d (Int.tdiv adc_val1 10) 4 false ++ " (".toList
    ++ fmt_d adc_val1 5 false ++ ")\n2.5 dB: ".toList ++ fmt_d (Int.tdiv adc_val2 10) 4 false
    ++ " (".toList ++ fmt_d adc_val2 5 false ++ ")".toList

/-- The state of `diagnostics_ambient_light` after the measurements and the
call of `display_static_list` of one pass (lines 366-388). -/
def diagnostics_ambient_light_show (env : MenuEnv) (st : State) : State :=
  let m1 := adc_sum env 10 0
    (st.log (.call "adc1_config_channel_atten(ADC1_LUM_PIN, ADC_ATTEN_DB_0)" []))
  let m2 := adc_sum env 10 0
    (m1.2.log (.call "adc1_config_channel_atten(ADC1_LUM_PIN, ADC_ATTEN_DB_2_5)" []))
  m2.2.log (.static_list "Ambient Light Sensor" (ambient_light_text m1.1 m2.1))

/-- The `while (1)` loop of `diagnostics_ambient_light` (lines 365-405). -/
def diagnostics_ambient_light_loop (env : MenuEnv) : Nat → Int → State → Except Fault State
  | 0, _, _ => .error .fuel
  | fuel + 1, msec_elapsed, st =>
    match diagnostics_poll env false 200 msec_elapsed
        (env.keypad_wait_for_event (diagnostics_ambient_light_show env st).trace 200).1
        (env.keypad_wait_for_event (diagnostics_ambient_light_show env st).trace 200).2
        ((diagnostics_ambient_light_show env st).log (.keypad_wait 200)) with
    | (true, _, st1) => .ok st1
    | (false, msec1, st1) => diagnostics_ambient_light_loop env fuel msec1 st1

/-- `diagnostics_ambient_light()` (lines 359-408). -/
def diagnostics_ambient_light (env : MenuEnv) (n : Nat) (st : State) : Except Fault State :=
  match diagnostics_ambient_light_loop env n 0 st with
  | .error e => .error e
  | .ok st1 =>
    .ok (st1.log (.call "adc1_config_channel_atten(ADC1_LUM_PIN, ADC_ATTEN_DB_2_5)" []))

/-- The text of the buffer of `diagnostics_volume` (lines 415-420).  `val >> 5`
is the quotient by 32 rounded down; `(int)(((val >> 5) / 127.0) * 100)` is the
quotient of `(val >> 5) * 100` by 127 that truncates, since the exact value is
either an integer or at least `1/127` away from one. -/
def volume_text (val : Int) : List Char :=
  "Value: ".toList ++ fmt_d val 4 false ++ "\nLevel: ".toList
    ++ fmt_d (Int.tdiv ((val / 32) * 100) 127) 3 false ++ "%".toList

/-- The `while (1)` loop of `diagnostics_volume` (lines 414-439). -/
def diagnostics_volume_loop (env : MenuEnv) : Nat → Int → State → Except Fault State
  | 0, _, _ => .error .fuel
  | fuel + 1, msec_elapsed, st =>
    match diagnostics_poll env false 250 msec_elapsed
        (env.keypad_wait_for_event
          (st.trace ++ [.static_list "Volume Adjustment"
            (volume_text (wrap_int (env.adc1_get_raw st.trace "ADC1_VOL_PIN")))]) 250).1
        (env.keypad_wait_for_event
          (st.trace ++ [.static_list "Volume Adjustment"
            (volume_text (wrap_int (env.adc1_get_raw st.trace "ADC1_VOL_PIN")))]) 250).2
        ((st.log (.static_list "Volume Adjustment"
            (volume_text (wrap_int (env.adc1_get_raw st.trace "ADC1_VOL_PIN"))))).log
          (.keypad_wait 250)) with
    | (true, _, st1) => .ok st1
    | (false, msec1, st1) => diagnostics_volume_loop env fuel msec1 st1

/-- `diagnostics_volume()` (lines 410-440). -/
def diagnostics_volume (env : MenuEnv) (n : Nat) (st : State) : Except Fault State :=
  diagnostics_volume_loop env n 0 st

/-- The action table of `main_menu_diagnostics` (lines 454-464). -/
def main_menu_diagnostics_dispatch (env : MenuEnv) (n : Nat) (option : Nat) (st : State) :
    Except Fault State :=
  if option = 1 then diagnostics_display env n st
  else if option = 2 then diagnostics_touch env n st
  else if option = 3 then diagnostics_ambient_light env n st
  else if option = 4 then diagnostics_volume env n st
  else if option = UINT8_MAX then .ok { st with menu_timeout := true }
  else .ok st

/-- One pass through the loop body of `main_menu_diagnostics` (lines 447-464):
the value of `option` and the state it leaves. -/
def main_menu_diagnostics_pass (env : MenuEnv) (n : Nat) (option : Nat) (st : State) :
    Except Fault (Nat × State) :=
  match main_menu_diagnostics_dispatch env n
      (env.display_selection_list st.trace "Diagnostics".toList option
        (cstr "Display Test\nCapacitive Touch\nAmbient Light Sensor\nVolume Adjustment") % 256)
      (st.log (.selection_list "Diagnostics".toList option
        (cstr "Display Test\nCapacitive Touch\nAmbient Light Sensor\nVolume Adjustment"))) with
  | .error e => .error e
  | .ok st1 =>
    .ok (env.display_selection_list st.trace "Diagnostics".toList option
        (cstr "Display Test\nCapacitive Touch\nAmbient Light Sensor\nVolume Adjustment") % 256,
      st1)

/-- The `do ... while (option > 0 && !menu_timeout)` loop of
`main_menu_diagnostics` (lines 446-465). -/
def main_menu_diagnostics_loop (env : MenuEnv) (n : Nat) :
    Nat → Nat → State → Except Fault State
  | 0, _, _ => .error .fuel
  | fuel + 1, option, st =>
    match main_menu_diagnostics_pass env n option st with
    | .error e => .error e
    | .ok (option1, st1) =>
      if 0 < option1 ∧ st1.menu_timeout = false then
        main_menu_diagnostics_loop env n fuel option1 st1
      else .ok st1

/-- `main_menu_diagnostics()` (lines 442-466). -/
def main_menu_diagnostics (env : MenuEnv) (n : Nat) (st : State) : Except Fault State :=
  main_menu_diagnostics_loop env n n 1 st

/-! ## The menu screens: alarm time and Wi-Fi -/

/-- `main_menu_set_alarm_time()` (lines 468-480). -/
def main_menu_set_alarm_time (env : MenuEnv) (st : State) : State :=
  match env.settings_get_alarm_time st.trace with
  | none => st
  | some (hh, mm) =>
    if (env.display_set_time st.trace hh mm).1 = true then
      (st.log (.entry "display_set_time" [])).log
        (.call "settings_set_alarm_time"
          [((env.display_set_time st.trace hh mm).2.1 : Int),
           ((env.display_set_time st.trace hh mm).2.2 : Int)])
    else st.log (.entry "display_set_time" [])

/-- The text `authmode` of `wifi_scan_connect` (lines 494-516). -/
def wifi_authmode_text (authmode : Nat) : String :=
  if authmode = WIFI_AUTH_OPEN then "Open\n"
  else if authmode = WIFI_AUTH_WEP then "WEP\n"
  else if authmode = WIFI_AUTH_WPA_PSK then "WPA-PSK\n"
  else if authmode = WIFI_AUTH_WPA2_PSK then "WPA2-PSK\n"
  else if authmode = WIFI_AUTH_WPA_WPA2_PSK then "WPA-WPA2-PSK\n"
  else if authmode = WIFI_AUTH_WPA2_ENTERPRISE then "WPA2-Enterprise\n"
  else "Unknown\n"

/-- The call of `display_message` with which `wifi_scan_connect` asks whether to
connect to `record` (lines 518-520). -/
def wifi_connect_prompt (record : wifi_ap_record_t) : Event :=
  .message (String.mk record.ssid) (some (String.mk (fmt_mac record.bssid)))
    (some (wifi_authmode_text record.authmode)) " Connect \n Cancel "

/-- The part of `wifi_scan_connect` after the user chose to connect (lines
528-559), in the state `st` after the prompt. -/
def wifi_scan_connect_go (env : MenuEnv) (record : wifi_ap_record_t) (st : State) :
    Bool × State :=
  if record.authmode = WIFI_AUTH_WPA2_ENTERPRISE then
    (false, st.log (.message (String.mk record.ssid) none
      (some "\nUnsupported authentication!\n") " OK "))
  else if record.authmode ≠ WIFI_AUTH_OPEN then
    if (env.display_input_text st.trace ("Password for ".toList ++ record.ssid) none).1 % 256 = 0
        ∨ (env.display_input_text st.trace ("Password for ".toList ++ record.ssid) none).2 = none
        ∨ (env.display_input_text st.trace ("Password for ".toList ++ record.ssid) none).1 % 256
            + 1 > 64 then
      (false, st.log (.entry "display_input_text" ("Password for ".toList ++ record.ssid)))
    else
      (decide (env.status
          (st.trace ++ [.entry "display_input_text" ("Password for ".toList ++ record.ssid)])
          "wifi_handler_connect" = ESP_OK),
        (st.log (.entry "display_input_text" ("Password for ".toList ++ record.ssid))).log
          (.call "wifi_handler_connect" []))
  else
    (decide (env.status st.trace "wifi_handler_connect" = ESP_OK),
      st.log (.call "wifi_handler_connect" []))

/-- `wifi_scan_connect(record)` (lines 482-560): its value and the state it
leaves.  The text of the BSSID has 17 bytes (`wifi_scan_bssid_size` counts them
with the terminator): in `bssid[17]` the terminator that `sprintf` writes
(lines 490-492) is the byte after the buffer.  This one write is not followed
here: the prompt is shown with the 17 bytes of text, as the call of
`display_message` reads them. -/
def wifi_scan_connect (env : MenuEnv) (record : wifi_ap_record_t) (st : State) : Bool × State :=
  if env.display_message st.trace (String.mk record.ssid) (some (String.mk (fmt_mac record.bssid)))
      (some (wifi_authmode_text record.authmode)) " Connect \n Cancel " % 256 = UINT8_MAX then
    (false, { st.log (wifi_connect_prompt record) with menu_timeout := true })
  else if env.display_message st.trace (String.mk record.ssid)
      (some (String.mk (fmt_mac record.bssid)))
      (some (wifi_authmode_text record.authmode)) " Connect \n Cancel " % 256 ≠ 1 then
    (false, st.log (wifi_connect_prompt record))
  else wifi_scan_connect_go env record (st.log (wifi_connect_prompt record))

/-- The text of a line of the list of `setup_wifi_scan` (line 591):
`"%22.22s | [% 4d]"` with the SSID and the RSSI of the record. -/
def wifi_scan_label (record : wifi_ap_record_t) : List Char :=
  fmt_22s record.ssid ++ " | [".toList ++ fmt_d record.rssi 4 true ++ "]".toList

/-- The `for` loop of `setup_wifi_scan` that builds the list (lines 589-594),
over the first `record_count` records: a record with an empty SSID is skipped. -/
def setup_wifi_scan_build : List wifi_ap_record_t → List Char → List Char
  | [], vp => vp
  | r :: rs, vp =>
    if r.ssid.length = 0 then setup_wifi_scan_build rs vp
    else
      setup_wifi_scan_build rs
        (vpool_insert
          (vpool_insert vp (vpool_get_length vp) (wifi_scan_label r) (wifi_scan_label r).length)
          (vpool_get_length
            (vpool_insert vp (vpool_get_length vp) (wifi_scan_label r) (wifi_scan_label r).length))
          "\n".toList 1)

/-- One pass through the loop body of `setup_wifi_scan` (lines 602-611) over the
array `records` with the clamped `record_count`: whether the pass left the loop
through `break`, the value of `option` and the state. -/
def setup_wifi_scan_pass (env : MenuEnv) (records : List wifi_ap_record_t) (record_count : Nat)
    (list : List Char) (option : Nat) (st : State) : Except Fault (Bool × Nat × State) :=
  if 0 < env.display_selection_list st.trace "Select Network".toList option list % 256
      ∧ env.display_selection_list st.trace "Select Network".toList option list % 256 - 1
        < record_count then
    match records[env.display_selection_list st.trace "Select Network".toList option list % 256
        - 1]? with
    | none => .error .oob
    | some record =>
      .ok ((wifi_scan_connect env record
          (st.log (.selection_list "Select Network".toList option list))).1,
        env.display_selection_list st.trace "Select Network".toList option list % 256,
        (wifi_scan_connect env record
          (st.log (.selection_list "Select Network".toList option list))).2)
  else if env.display_selection_list st.trace "Select Network".toList option list % 256
      = UINT8_MAX then
    .ok (false, env.display_selection_list st.trace "Select Network".toList option list % 256,
      { st.log (.selection_list "Select Network".toList option list) with menu_timeout := true })
  else
    .ok (false, env.display_selection_list st.trace "Select Network".toList option list % 256,
      st.log (.selection_list "Select Network".toList option list))

/-- The `do ... while (option > 0 && !menu_timeout)` loop of `setup_wifi_scan`
(lines 601-612). -/
def setup_wifi_scan_loop (env : MenuEnv) (records : List wifi_ap_record_t) (record_count : Nat)
    (list : List Char) : Nat → Nat → State → Except Fault State
  | 0, _, _ => .error .fuel
  | fuel + 1, option, st =>
    match setup_wifi_scan_pass env records record_count list option st with
    | .error e => .error e
    | .ok (true, _, st1) => .ok st1
    | .ok (false, option1, st1) =>
      if 0 < option1 ∧ st1.menu_timeout = false then
        setup_wifi_scan_loop env records record_count list fuel option1 st1
      else .ok st1

/-- The option list of `setup_wifi_scan` (lines 586-598) for the array `records`
with the clamped `record_count`; writing `list[len - 1]` in an empty pool is a
fault. -/
def setup_wifi_scan_list (records : List wifi_ap_record_t) (record_count : Nat) :
    Except Fault (List Char) :=
  if setup_wifi_scan_build (records.take record_count) [] = [] then .error .oob
  else
    .ok ((setup_wifi_scan_build (records.take record_count) []).set
      (vpool_get_length (setup_wifi_scan_build (records.take record_count) []) - 1) NUL)

/-- `setup_wifi_scan()` (lines 562-616).  The array that `wifi_handler_scan`
leaves has `record_count` elements. -/
def setup_wifi_scan (env : MenuEnv) (n : Nat) (st : State) : Except Fault State :=
  if (env.wifi_handler_scan
      (st.trace ++ [.static_message "Wi-Fi Scan" none (some "\nPlease wait...")])).1 ≠ ESP_OK then
    .ok (st.log (.static_message "Wi-Fi Scan" none (some "\nPlease wait...")))
  else
    match (env.wifi_handler_scan
        (st.trace ++ [.static_message "Wi-Fi Scan" none (some "\nPlease wait...")])).2 with
    | none =>
      .ok ((st.log (.static_message "Wi-Fi Scan" none (some "\nPlease wait..."))).log
        (.message "Wi-Fi Scan" none (some "\nNo networks found!\n") " OK "))
    | some records =>
      match setup_wifi_scan_list records (min records.length (UINT8_MAX - 2)) with
      | .error e => .error e
      | .ok list =>
        setup_wifi_scan_loop env records (min records.length (UINT8_MAX - 2)) list n 1
          (st.log (.static_message "Wi-Fi Scan" none (some "\nPlease wait...")))

/-- The text of the buffer of `setup_network_info` (lines 627-646). -/
def network_info_text (env : MenuEnv) (st : State) : List Char :=
  (match env.esp_wifi_get_mac st.trace with
    | .ok mac => "MAC: ".toList ++ fmt_mac mac ++ "\n".toList
    | .error _ => [])
  ++ (match env.tcpip_adapter_get_ip_info st.trace with
    | some (ip, netmask, gw) =>
      "IP: ".toList ++ fmt_ip ip ++ "\nNetmask: ".toList ++ fmt_ip netmask
        ++ "\nGateway: ".toList ++ fmt_ip gw ++ "\n".toList
    | none => [])

/-- The `while (1)` loop of `setup_network_info` (lines 654-661). -/
def setup_network_info_loop (env : MenuEnv) : Nat → State → Except Fault State
  | 0, _ => .error .fuel
  | fuel + 1, st =>
    if (main_menu_keypad_wait env st).1 = ESP_OK
        ∧ (main_menu_keypad_wait env st).2.1.pressed = true then
      .ok (main_menu_keypad_wait env st).2.2
    else setup_network_info_loop env fuel (main_menu_keypad_wait env st).2.2

/-- `setup_network_info()` (lines 618-664); writing `list[len - 1]` in an empty
pool is a fault. -/
def setup_network_info (env : MenuEnv) (n : Nat) (st : State) : Except Fault State :=
  if network_info_text env st = [] then .error .oob
  else
    setup_network_info_loop env n
      (st.log (.static_list "Network Info" (network_info_text env st).dropLast))

/-! ## The menu screens: time zone, time format, NTP server -/

/-- What `setup_time_zone_region` does with a resolved zone (lines 687-702),
before its `break`: the value of `result` and the state. -/
def setup_time_zone_region_apply (env : MenuEnv) (zone : List Char) (st : State) :
    Bool × State :=
  match env.zoneinfo_get_tz st.trace zone with
  | none => (false, st)
  | some _ =>
    if env.status st.trace "settings_set_time_zone" = ESP_OK then
      (true, ((st.log (.call "settings_set_time_zone" [])).log (.call "setenv" [])).log
        (.call "tzset" []))
    else (false, st.log (.call "settings_set_time_zone" []))

/-- One pass through the loop body of `setup_time_zone_region` (lines 676-703):
`some result` when the pass left the loop through `break`, the value of
`option` and the state.  `zone[128]` receives `region`, `"/"`, the `length`
bytes of the label and the terminator (lines 687-690): more than 128 bytes are
written past the buffer, a fault. -/
def setup_time_zone_region_pass (env : MenuEnv) (region zone_list : List Char) (option : Nat)
    (st : State) : Except Fault (Option Bool × Nat × State) :=
  if env.display_selection_list st.trace "Select Zone".toList option zone_list % 256
      = UINT8_MAX then
    .ok (some false,
      env.display_selection_list st.trace "Select Zone".toList option zone_list % 256,
      { st.log (.selection_list "Select Zone".toList option zone_list) with
        menu_timeout := true })
  else
    match find_list_option zone_list
        (env.display_selection_list st.trace "Select Zone".toList option zone_list % 256 : Nat) with
    | .error e => .error e
    | .ok none =>
      .ok (none, env.display_selection_list st.trace "Select Zone".toList option zone_list % 256,
        st.log (.selection_list "Select Zone".toList option zone_list))
    | .ok (some (value, length)) =>
      if 128 < region.length + 1 + length + 1 then .error .oob
      else
        .ok (some (setup_time_zone_region_apply env
              (region ++ '/' :: (zone_list.drop value).take length)
              (st.log (.selection_list "Select Zone".toList option zone_list))).1,
          env.display_selection_list st.trace "Select Zone".toList option zone_list % 256,
          (setup_time_zone_region_apply env
              (region ++ '/' :: (zone_list.drop value).take length)
              (st.log (.selection_list "Select Zone".toList option zone_list))).2)

/-- The `do ... while (option > 0 && !menu_timeout)` loop of
`setup_time_zone_region` (lines 675-705): the value of `result` and the state. -/
def setup_time_zone_region_loop (env : MenuEnv) (region zone_list : List Char) :
    Nat → Nat → State → Except Fault (Bool × State)
  | 0, _, _ => .error .fuel
  | fuel + 1, option, st =>
    match setup_time_zone_region_pass env region zone_list option st with
    | .error e => .error e
    | .ok (some result, _, st1) => .ok (result, st1)
    | .ok (none, option1, st1) =>
      if 0 < option1 ∧ st1.menu_timeout = false then
        setup_time_zone_region_loop env region zone_list fuel option1 st1
      else .ok (false, st1)

/-- `setup_time_zone_region(region)` (lines 666-710). -/
def setup_time_zone_region (env : MenuEnv) (n : Nat) (region : List Char) (st : State) :
    Except Fault (Bool × State) :=
  match env.zoneinfo_build_region_zone_list st.trace region with
  | none => .ok (false, st)
  | some zone_list => setup_time_zone_region_loop env region (zone_list ++ [NUL]) n 1 st

/-- One pass through the loop body of `setup_time_zone` (lines 721-738):
whether the pass left the loop through `break`, the value of `option` and the
state.  `region[32]` receives the `length` bytes of the label and, at
`region[length]`, the terminator (lines 732-734): a label of 32 bytes or more
is written past the buffer, a fault. -/
def setup_time_zone_pass (env : MenuEnv) (n : Nat) (region_list : List Char) (option : Nat)
    (st : State) : Except Fault (Bool × Nat × State) :=
  if env.display_selection_list st.trace "Select Region".toList option region_list % 256
      = UINT8_MAX then
    .ok (true,
      env.display_selection_list st.trace "Select Region".toList option region_list % 256,
      { st.log (.selection_list "Select Region".toList option region_list) with
        menu_timeout := true })
  else
    match find_list_option region_list
        (env.display_selection_list st.trace "Select Region".toList option region_list % 256
          : Nat) with
    | .error e => .error e
    | .ok none =>
      .ok (false,
        env.display_selection_list st.trace "Select Region".toList option region_list % 256,
        st.log (.selection_list "Select Region".toList option region_list))
    | .ok (some (value, length)) =>
      if 32 ≤ length then .error .oob
      else
        match setup_time_zone_region env n ((region_list.drop value).take length)
            (st.log (.selection_list "Select Region".toList option region_list)) with
        | .error e => .error e
        | .ok (result, st1) =>
          .ok (result,
            env.display_selection_list st.trace "Select Region".toList option region_list % 256,
            st1)

/-- The `do ... while (option > 0 && !menu_timeout)` loop of `setup_time_zone`
(lines 720-740). -/
def setup_time_zone_loop (env : MenuEnv) (n : Nat) (region_list : List Char) :
    Nat → Nat → State → Except Fault State
  | 0, _, _ => .error .fuel
  | fuel + 1, option, st =>
    match setup_time_zone_pass env n region_list option st with
    | .error e => .error e
    | .ok (true, _, st1) => .ok st1
    | .ok (false, option1, st1) =>
      if 0 < option1 ∧ st1.menu_timeout = false then
        setup_time_zone_loop env n region_list fuel option1 st1
      else .ok st1

/-- `setup_time_zone()` (lines 712-743). -/
def setup_time_zone (env : MenuEnv) (n : Nat) (st : State) : Except Fault State :=
  match env.zoneinfo_build_region_list st.trace with
  | none => .ok st
  | some region_list => setup_time_zone_loop env n (region_list ++ [NUL]) n 1 st

/-- `setup_time_format()` (lines 745-761). -/
def setup_time_format (env : MenuEnv) (st : State) : State :=
  if env.display_message st.trace "Time Format" none (some "\n") " 12-hour \n 24-hour " % 256
      = UINT8_MAX then
    { st.log (.message "Time Format" none (some "\n") " 12-hour \n 24-hour ") with
      menu_timeout := true }
  else if env.display_message st.trace "Time Format" none (some "\n") " 12-hour \n 24-hour "
      % 256 = 1 then
    if env.status (st.trace ++ [.message "Time Format" none (some "\n") " 12-hour \n 24-hour "])
        "settings_set_time_format" = ESP_OK then
      { (st.log (.message "Time Format" none (some "\n") " 12-hour \n 24-hour ")).log
          (.call "settings_set_time_format" [0]) with time_twentyfour := false }
    else
      (st.log (.message "Time Format" none (some "\n") " 12-hour \n 24-hour ")).log
        (.call "settings_set_time_format" [0])
  else if env.display_message st.trace "Time Format" none (some "\n") " 12-hour \n 24-hour "
      % 256 = 2 then
    if env.status (st.trace ++ [.message "Time Format" none (some "\n") " 12-hour \n 24-hour "])
        "settings_set_time_format" = ESP_OK then
      { (st.log (.message "Time Format" none (some "\n") " 12-hour \n 24-hour ")).log
          (.call "settings_set_time_format" [1]) with time_twentyfour := true }
    else
      (st.log (.message "Time Format" none (some "\n") " 12-hour \n 24-hour ")).log
        (.call "settings_set_time_format" [1])
  else st.log (.message "Time Format" none (some "\n") " 12-hour \n 24-hour ")

/-- The host name with which `setup_ntp_server` opens the entry screen (lines
765-777), or `none` when it returns before. -/
def setup_ntp_server_hostname (env : MenuEnv) (st : State) : Option (List Char) :=
  if (env.settings_get_ntp_server st.trace).1 ≠ ESP_OK
      ∨ (env.settings_get_ntp_server st.trace).2 = none
      ∨ (env.settings_get_ntp_server st.trace).2 = some [] then
    match env.time_handler_sntp_getservername st.trace with
    | none => none
    | some sntp_servername =>
      if sntp_servername.length = 0 then none
      else if env.strdup st.trace sntp_servername = false then none
      else some sntp_servername
  else (env.settings_get_ntp_server st.trace).2

/-- `setup_ntp_server()` (lines 763-793). -/
def setup_ntp_server (env : MenuEnv) (st : State) : State :=
  match setup_ntp_server_hostname env st with
  | none => st
  | some hostname =>
    if (env.display_input_text st.trace "NTP Server".toList (some hostname)).1 % 256 = 0
        ∨ (env.display_input_text st.trace "NTP Server".toList (some hostname)).2 = none then
      st.log (.entry "display_input_text" "NTP Server".toList)
    else if env.status (st.trace ++ [.entry "display_input_text" "NTP Server".toList])
        "settings_set_ntp_server" = ESP_OK then
      ((st.log (.entry "display_input_text" "NTP Server".toList)).log
        (.call "settings_set_ntp_server" [])).log (.call "time_handler_sntp_setservername" [])
    else
      (st.log (.entry "display_input_text" "NTP Server".toList)).log
        (.call "settings_set_ntp_server" [])

/-! ## The menu screens: RTC calibration -/

/-- The `do ... while (option > 1 && count < 5)` loop of
`setup_rtc_calibration_measure` (lines 804-812) with the local `count`, a
`uint8_t`: the last value of `option` and the state. -/
def setup_rtc_calibration_measure_loop (env : MenuEnv) :
    Nat → Nat → State → Except Fault (Nat × State)
  | 0, _, _ => .error .fuel
  | fuel + 1, count, st =>
    if 1 < env.display_message st.trace "RTC Measure" none
          (some "\nMeasure frequency at test point\n") " Done " % 256
        ∧ (if env.display_message st.trace "RTC Measure" none
              (some "\nMeasure frequency at test point\n") " Done " % 256 = UINT8_MAX
            then (count + 1) % 256 else count) < 5 then
      setup_rtc_calibration_measure_loop env fuel
        (if env.display_message st.trace "RTC Measure" none
            (some "\nMeasure frequency at test point\n") " Done " % 256 = UINT8_MAX
          then (count + 1) % 256 else count)
        (st.log (.message "RTC Measure" none (some "\nMeasure frequency at test point\n")
          " Done "))
    else
      .ok (env.display_message st.trace "RTC Measure" none
          (some "\nMeasure frequency at test point\n") " Done " % 256,
        st.log (.message "RTC Measure" none (some "\nMeasure frequency at test point\n")
          " Done "))

/-- `setup_rtc_calibration_measure()` (lines 795-819). -/
def setup_rtc_calibration_measure (env : MenuEnv) (n : Nat) (st : State) : Except Fault State :=
  if env.status st.trace "board_rtc_calibration" ≠ ESP_OK then
    .ok ((st.log (.call "board_rtc_calibration" [])).log (.call "board_rtc_init" []))
  else
    match setup_rtc_calibration_measure_loop env n 0 (st.log (.call "board_rtc_calibration" [])) with
    | .error e => .error e
    | .ok (option, st1) =>
      if option = UINT8_MAX then
        .ok ({ st1 with menu_timeout := true }.log (.call "board_rtc_init" []))
      else .ok (st1.log (.call "board_rtc_init" []))

/-- The text of the buffer of `setup_rtc_calibration_trim` (lines 830-833), as
memory. -/
def rtc_trim_list (coarse_sel add_sel : Bool) (value_sel : Nat) : List Char :=
  (if coarse_sel then "Coarse".toList else "Fine".toList) ++ "\n".toList
    ++ (if add_sel then "Add".toList else "Subtract".toList) ++ "\nValue=".toList
    ++ Nat.toDigits 10 value_sel ++ "\nAccept".toList ++ [NUL]

/-- The locals of `setup_rtc_calibration_trim` that live across the passes of
its loop, together with the two variables of the caller that it writes. -/
structure TrimVars where
  coarse : Bool
  value : Nat
  coarse_sel : Bool
  add_sel : Bool
  value_sel : Nat
  deriving DecidableEq, Repr

/-- One pass through the loop body of `setup_rtc_calibration_trim` (lines
830-851): whether the pass left the loop through `break`, the value of
`option`, the variables and the state. -/
def setup_rtc_calibration_trim_pass (env : MenuEnv) (option : Nat) (v : TrimVars) (st : State) :
    Bool × Nat × TrimVars × State :=
  let list := rtc_trim_list v.coarse_sel v.add_sel v.value_sel
  let option1 := env.display_selection_list st.trace "RTC Trim".toList option list % 256
  let st1 := st.log (.selection_list "RTC Trim".toList option list)
  if option1 = 1 then (false, option1, { v with coarse_sel := !v.coarse_sel }, st1)
  else if option1 = 2 then (false, option1, { v with add_sel := !v.add_sel }, st1)
  else if option1 = 3 then
    if (env.display_input_value st1.trace v.value_sel).1 % 256 = UINT8_MAX then
      (false, option1,
        { v with value_sel := (env.display_input_value st1.trace v.value_sel).2 % 256 },
        { st1.log (.entry "display_input_value" "Trim Value\n".toList) with menu_timeout := true })
    else
      (false, option1,
        { v with value_sel := (env.display_input_value st1.trace v.value_sel).2 % 256 },
        st1.log (.entry "display_input_value" "Trim Value\n".toList))
  else if option1 = 4 then
    (true, option1,
      { v with coarse := v.coarse_sel,
               value := (if v.add_sel then 128 else 0) + v.value_sel % 128 }, st1)
  else if option1 = UINT8_MAX then (false, option1, v, { st1 with menu_timeout := true })
  else (false, option1, v, st1)

/-- The `do ... while (option > 0 && !menu_timeout)` loop of
`setup_rtc_calibration_trim` (lines 829-852). -/
def setup_rtc_calibration_trim_loop (env : MenuEnv) :
    Nat → Nat → TrimVars → State → Except Fault (TrimVars × State)
  | 0, _, _, _ => .error .fuel
  | fuel + 1, option, v, st =>
    if (setup_rtc_calibration_trim_pass env option v st).1 = true then
      .ok ((setup_rtc_calibration_trim_pass env option v st).2.2.1,
        (setup_rtc_calibration_trim_pass env option v st).2.2.2)
    else if 0 < (setup_rtc_calibration_trim_pass env option v st).2.1
        ∧ (setup_rtc_calibration_trim_pass env option v st).2.2.2.menu_timeout = false then
      setup_rtc_calibration_trim_loop env fuel
        (setup_rtc_calibration_trim_pass env option v st).2.1
        (setup_rtc_calibration_trim_pass env option v st).2.2.1
        (setup_rtc_calibration_trim_pass env option v st).2.2.2
    else
      .ok ((setup_rtc_calibration_trim_pass env option v st).2.2.1,
        (setup_rtc_calibration_trim_pass env option v st).2.2.2)

/-- `setup_rtc_calibration_trim(&coarse, &value)` (lines 821-853): the values of
`*coarse` and `*value` and the state it leaves.  `*value & 0x80` is the bit of
weight 128 and `*value & 0x7F` the remainder by 128 of the `uint8_t`. -/
def setup_rtc_calibration_trim (env : MenuEnv) (n : Nat) (coarse : Bool) (value : Nat)
    (st : State) : Except Fault (Bool × Nat × State) :=
  match setup_rtc_calibration_trim_loop env n 1
      { coarse := coarse, value := value, coarse_sel := coarse,
        add_sel := decide (value / 128 % 2 = 1), value_sel := value % 128 } st with
  | .error e => .error e
  | .ok (v, st1) => .ok (v.coarse, v.value, st1)

/-- The text of `buf` of `setup_rtc_calibration` (lines 866-869). -/
def rtc_calibration_buf (coarse : Bool) (value : Nat) : List Char :=
  "[".toList ++ (if coarse then "Coarse".toList else "Fine".toList) ++ "] ".toList
    ++ (if value / 128 % 2 = 1 then ['+'] else ['-']) ++ Nat.toDigits 10 (value % 128)

/-- The text of `buf2` of `setup_rtc_calibration` (lines 871-882). -/
def rtc_calibration_buf2 (coarse : Bool) (value : Nat) : List Char :=
  if value % 128 = 0 then "Digital trimming disabled\n".toList
  else
    (if value / 128 % 2 = 1 then "Add".toList else "Subtract".toList) ++ " ".toList
      ++ Nat.toDigits 10 (value % 128 * 2)
      ++ (if coarse then " clock cycles\n128 times per second\n".toList
          else " clock cycles\nevery minute\n".toList)

/-- The call of `display_message` of `setup_rtc_calibration` (lines 884-886). -/
def rtc_calibration_message (coarse : Bool) (value : Nat) : Event :=
  .message "RTC Calibration\n" (some (String.mk (rtc_calibration_buf coarse value)))
    (some (String.mk (rtc_calibration_buf2 coarse value))) " Measure \n Trim \n OK \n Cancel "

/-- One pass through the loop body of `setup_rtc_calibration` (lines 866-906) with
the locals `coarse` and `value`: whether the pass left the loop through `break`,
the locals and the state. -/
def setup_rtc_calibration_pass (env : MenuEnv) (n : Nat) (coarse : Bool) (value : Nat)
    (st : State) : Except Fault (Bool × Bool × Nat × State) :=
  let option := env.display_message st.trace "RTC Calibration\n"
    (some (String.mk (rtc_calibration_buf coarse value)))
    (some (String.mk (rtc_calibration_buf2 coarse value)))
    " Measure \n Trim \n OK \n Cancel " % 256
  let st1 := st.log (rtc_calibration_message coarse value)
  if option = 1 then
    match setup_rtc_calibration_measure env n st1 with
    | .error e => .error e
    | .ok st2 => .ok (false, coarse, value, st2)
  else if option = 2 then
    match setup_rtc_calibration_trim env n coarse value st1 with
    | .error e => .error e
    | .ok (coarse1, value1, st2) => .ok (false, coarse1, value1, st2)
  else if option = 3 then
    if value % 128 = 0 then
      .ok (true, coarse, value,
        (st1.log (.call "settings_set_rtc_trim" [0, 0])).log (.call "board_rtc_init" []))
    else
      .ok (true, coarse, value,
        (st1.log (.call "settings_set_rtc_trim" [if coarse then 1 else 0, (value : Int)])).log
          (.call "board_rtc_init" []))
  else if option = UINT8_MAX then .ok (true, coarse, value, { st1 with menu_timeout := true })
  else if option = 0 ∨ option = 4 then .ok (true, coarse, value, st1)
  else .ok (false, coarse, value, st1)

/-- The `do ... while (true)` loop of `setup_rtc_calibration` (lines 865-907). -/
def setup_rtc_calibration_loop (env : MenuEnv) (n : Nat) :
    Nat → Bool → Nat → State → Except Fault State
  | 0, _, _, _ => .error .fuel
  | fuel + 1, coarse, value, st =>
    match setup_rtc_calibration_pass env n coarse value st with
    | .error e => .error e
    | .ok (true, _, _, st1) => .ok st1
    | .ok (false, coarse1, value1, st1) => setup_rtc_calibration_loop env n fuel coarse1 value1 st1

/-- `setup_rtc_calibration()` (lines 855-908). -/
def setup_rtc_calibration (env : MenuEnv) (n : Nat) (st : State) : Except Fault State :=
  match env.settings_get_rtc_trim st.trace with
  | none => .ok st
  | some (coarse, value) => setup_rtc_calibration_loop env n n coarse (value % 256) st

/-! ## The menu screens: setup, about and main menu -/

/-- The option list of `main_menu_setup` (lines 917-922), as memory. -/
def main_menu_setup_list : List Char :=
  cstr "Wi-Fi Setup\nNetwork Info\nTime Zone\nTime Format\nNTP Server\nRTC Calibration"

/-- The action table of `main_menu_setup` (lines 924-938). -/
def main_menu_setup_dispatch (env : MenuEnv) (n : Nat) (option : Nat) (st : State) :
    Except Fault State :=
  if option = 1 then setup_wifi_scan env n st
  else if option = 2 then setup_network_info env n st
  else if option = 3 then setup_time_zone env n st
  else if option = 4 then .ok (setup_time_format env st)
  else if option = 5 then .ok (setup_ntp_server env st)
  else if option = 6 then setup_rtc_calibration env n st
  else if option = UINT8_MAX then .ok { st with menu_timeout := true }
  else .ok st

/-- One pass through the loop body of `main_menu_setup` (lines 915-938): the value
of `option` and the state it leaves. -/
def main_menu_setup_pass (env : MenuEnv) (n : Nat) (option : Nat) (st : State) :
    Except Fault (Nat × State) :=
  match main_menu_setup_dispatch env n
      (env.display_selection_list st.trace "Setup".toList option main_menu_setup_list % 256)
      (st.log (.selection_list "Setup".toList option main_menu_setup_list)) with
  | .error e => .error e
  | .ok st1 =>
    .ok (env.display_selection_list st.trace "Setup".toList option main_menu_setup_list % 256,
      st1)

/-- The `do ... while (option > 0 && !menu_timeout)` loop of `main_menu_setup`
(lines 914-940). -/
def main_menu_setup_loop (env : MenuEnv) (n : Nat) : Nat → Nat → State → Except Fault State
  | 0, _, _ => .error .fuel
  | fuel + 1, option, st =>
    match main_menu_setup_pass env n option st with
    | .error e => .error e
    | .ok (option1, st1) =>
      if 0 < option1 ∧ st1.menu_timeout = false then main_menu_setup_loop env n fuel option1 st1
      else .ok st1

/-- `main_menu_setup()` (lines 910-941). -/
def main_menu_setup (env : MenuEnv) (n : Nat) (st : State) : Except Fault State :=
  main_menu_setup_loop env n n 1 st

/-- `main_menu_about()` (lines 943-952). -/
def main_menu_about (env : MenuEnv) (st : State) : State :=
  if env.display_message st.trace "Nestronic" none
      (some "\nVideo Game Music Player\nAlarm Clock\n") " OK " % 256 = UINT8_MAX then
    { st.log (.message "Nestronic" none (some "\nVideo Game Music Player\nAlarm Clock\n") " OK ")
      with menu_timeout := true }
  else st.log (.message "Nestronic" none (some "\nVideo Game Music Player\nAlarm Clock\n") " OK ")

/-- The option list of `main_menu` (lines 961-966), as memory. -/
def main_menu_list : List Char :=
  cstr "Demo Playback\nDemo Sound Effects\nDiagnostics\nSet Alarm Time\nSetup\nAbout"

/-- The action table of `main_menu` (lines 968-982). -/
def main_menu_dispatch (env : MenuEnv) (n : Nat) (option : Nat) (st : State) :
    Except Fault State :=
  if option = 1 then main_menu_demo_playback env n st
  else if option = 2 then main_menu_demo_sound_effects env n st
  else if option = 3 then main_menu_diagnostics env n st
  else if option = 4 then .ok (main_menu_set_alarm_time env st)
  else if option = 5 then main_menu_setup env n st
  else if option = 6 then .ok (main_menu_about env st)
  else if option = UINT8_MAX then .ok { st with menu_timeout := true }
  else .ok st

/-- One pass through the loop body of `main_menu` (lines 959-982): the value of
`option` and the state it leaves. -/
def main_menu_pass (env : MenuEnv) (n : Nat) (option : Nat) (st : State) :
    Except Fault (Nat × State) :=
  match main_menu_dispatch env n
      (env.display_selection_list st.trace "Main Menu".toList option main_menu_list % 256)
      (st.log (.selection_list "Main Menu".toList option main_menu_list)) with
  | .error e => .error e
  | .ok st1 =>
    .ok (env.display_selection_list st.trace "Main Menu".toList option main_menu_list % 256, st1)

/-- The `do ... while (option > 0 && !menu_timeout)` loop of `main_menu` (lines
958-983). -/
def main_menu_loop (env : MenuEnv) (n : Nat) : Nat → Nat → State → Except Fault State
  | 0, _, _ => .error .fuel
  | fuel + 1, option, st =>
    match main_menu_pass env n option st with
    | .error e => .error e
    | .ok (option1, st1) =>
      if 0 < option1 ∧ st1.menu_timeout = false then main_menu_loop env n fuel option1 st1
      else .ok st1

/-- `main_menu()` (lines 954-984). -/
def main_menu (env : MenuEnv) (n : Nat) (st : State) : Except Fault State :=
  main_menu_loop env n n 1 st

/-! ## The tick handler and the menu task -/

/-- `board_rtc_alarm_func(alarm0, alarm1, time)` (lines 986-998): its value and
the state it leaves. -/
def board_rtc_alarm_func (env : MenuEnv) (_alarm0 _alarm1 : Bool) (time : Int) (st : State) :
    Nat × State :=
  match env.localtime_r st.trace time with
  | some (tm_hour, tm_min) =>
    if st.menu_visible = false then
      (ESP_OK, (((st.log (.semaphore true)).log
        (.draw_time tm_hour tm_min st.time_twentyfour st.alarm_set)).log (.semaphore false)))
    else (ESP_OK, (st.log (.semaphore true)).log (.semaphore false))
  | none => (ESP_OK, st)

/-- Where `main_menu_task` stands between two steps. -/
inductive TaskLoc where
  /-- At the start of a pass of the outer `while (1)` (line 1006). -/
  | top
  /-- Idle: blocked in `keypad_wait_for_event(&keypad_event, -1)` (line 1021),
  no screen active. -/
  | idle
  /-- At `if (menu_visible)` (line 1039), after the inner loop. -/
  | check
  /-- At the call of `main_menu()` (line 1041), after `menu_timeout = false`. -/
  | menu
  deriving DecidableEq, Repr

/-- The first part of a pass of the outer loop of `main_menu_task` (lines
1006-1016): the idle face is drawn under the lock. -/
def main_menu_task_show (env : MenuEnv) (st : State) : State :=
  let st1 := ({ st.log (.semaphore true) with menu_visible := false }).log (.draw "display_clear" [])
  let st2 :=
    match env.board_rtc_get_time st1.trace with
    | some time =>
      match env.localtime_r st1.trace time with
      | some (tm_hour, tm_min) =>
        st1.log (.draw_time tm_hour tm_min st1.time_twentyfour st1.alarm_set)
      | none => st1
    | none => st1
  st2.log (.semaphore false)

/-- One pass of the inner `while (1)` of `main_menu_task` (lines 1020-1036):
whether the pass left the loop through `break`, and the state. -/
def main_menu_task_key (env : MenuEnv) (st : State) : Bool × State :=
  let r := env.keypad_wait_for_event st.trace (-1)
  let st1 := st.log (.keypad_wait (-1))
  if r.1 = ESP_OK then
    if r.2.pressed = true then
      if r.2.key = .KEYPAD_BUTTON_START then (true, { st1 with alarm_set := true })
      else if r.2.key = .KEYPAD_BUTTON_SELECT then (true, { st1 with alarm_set := false })
      else if r.2.key = .KEYPAD_BUTTON_A ∨ r.2.key = .KEYPAD_BUTTON_B then
        (true, ({ st1.log (.semaphore true) with menu_visible := true }).log (.semaphore false))
      else (true, st1)
    else (false, st1)
  else (false, st1)

/-- The step relation of `main_menu_task` (lines 1000-1046), as a function: from
a location and a state to the next ones.  The call of `main_menu()` is one step;
`n` is the budget of its loops. -/
def main_menu_task_step (env : MenuEnv) (n : Nat) : TaskLoc × State → Except Fault (TaskLoc × State)
  | (.top, st) => .ok (.idle, main_menu_task_show env st)
  | (.idle, st) =>
    if (main_menu_task_key env st).1 = true then .ok (.check, (main_menu_task_key env st).2)
    else .ok (.idle, (main_menu_task_key env st).2)
  | (.check, st) =>
    if st.menu_visible = true then .ok (.menu, { st with menu_timeout := false })
    else .ok (.top, st)
  | (.menu, st) =>
    match main_menu env n st with
    | .error e => .error e
    | .ok st1 => .ok (.top, st1)

/-- The state of `main_menu_task` after `k` steps. -/
def main_menu_task_run (env : MenuEnv) (n : Nat) : Nat → TaskLoc × State → Except Fault (TaskLoc × State)
  | 0, ts => .ok ts
  | k + 1, ts =>
    match main_menu_task_step env n ts with
    | .error e => .error e
    | .ok ts1 => main_menu_task_run env n k ts1

/-! ## Example inputs -/

/-- The listing of the scenario of the specification, as `scandir` sorts it:
the directory `Sub` and the files `a.vgm` and `b.vgm`. -/
def demo_namelist : List dirent :=
  [⟨DT_DIR, "Sub".toList⟩, ⟨DT_REG, "a.vgm".toList⟩, ⟨DT_REG, "b.vgm".toList⟩]

/-- A name of 255 bytes with 127 delimiters inside: `"a\na\n...a\n"` followed by
the byte `c`. -/
def nl_name (c : Char) : List Char :=
  (List.replicate 127 ['a', '\n']).flatten ++ [c]

/-- A listing of two directories whose names contain delimiters. -/
def nl_namelist : List dirent := [⟨DT_DIR, nl_name 'a'⟩, ⟨DT_DIR, nl_name 'b'⟩]

/-- A sorted listing of 254 regular files: `000.txt` to `252.txt`, then `z.vgm`. -/
def crowded_namelist : List dirent :=
  (List.range 253).map (fun i =>
    ⟨DT_REG, [Char.ofNat (48 + i / 100), Char.ofNat (48 + i / 10 % 10), Char.ofNat (48 + i % 10)]
      ++ ".txt".toList⟩)
  ++ [⟨DT_REG, "z.vgm".toList⟩]

/-- The card of the scenario of the specification: `/sdcard` holds `b.vgm`,
`a.vgm` and the directory `Sub`, in this order, and `/sdcard/Sub` holds `c.vgm`. -/
def demo_readdir (path : List Char) : Option (List dirent) :=
  if path = "/sdcard".toList then
    some [⟨DT_REG, "b.vgm".toList⟩, ⟨DT_REG, "a.vgm".toList⟩, ⟨DT_DIR, "Sub".toList⟩]
  else if path = "/sdcard/Sub".toList then some [⟨DT_REG, "c.vgm".toList⟩]
  else none

/-- An environment over the card `demo_readdir` in which the successive calls of
`display_selection_list` return the values `answers` (and 0 after them), and
in which the allocations succeed or fail as `mem` and `dup` say. -/
def demo_env (answers : List Nat) (mem dup : Bool) : Env where
  readdir := fun _ path => demo_readdir path
  sdcard_is_detected := fun _ => true
  sdcard_is_mounted := fun _ => true
  display_selection_list := fun hist _ _ _ =>
    answers.getD (hist.filter (fun e => match e with
      | .selection_list _ _ _ => true
      | _ => false)).length 0
  malloc := fun _ _ => mem
  strndup := fun _ _ _ => dup

/-- The state in which the main menu task enters the menu: `menu_visible` set,
`menu_timeout` reset, nothing recorded yet. -/
def st0 : State :=
  { menu_visible := true, alarm_set := false, time_twentyfour := false,
    menu_timeout := false, trace := [] }

/-- The number of recorded calls of `display_selection_list`. -/
def count_selection_list (hist : List Event) : Nat :=
  (hist.filter (fun e => match e with
    | .selection_list _ _ _ => true
    | _ => false)).length

/-- The number of recorded calls of `display_message`. -/
def count_message (hist : List Event) : Nat :=
  (hist.filter (fun e => match e with
    | .message _ _ _ _ => true
    | _ => false)).length

/-- An environment of the menu in which the successive calls of
`display_selection_list` return the values `sel` and those of `display_message`
the values `msg` (and 0 after them), every key event is the press of the button
A, the stored RTC trim is "fine, 0", and the Wi-Fi scan finds `records`. -/
def menu_env (sel msg : List Nat) (records : Option (List wifi_ap_record_t)) : MenuEnv where
  readdir := fun _ path => demo_readdir path
  sdcard_is_detected := fun _ => false
  sdcard_is_mounted := fun _ => false
  display_selection_list := fun hist _ _ _ => sel.getD (count_selection_list hist) 0
  malloc := fun _ _ => true
  strndup := fun _ _ _ => true
  display_message := fun hist _ _ _ _ => msg.getD (count_message hist) 0
  keypad_wait_for_event := fun _ _ => (ESP_OK, ⟨.KEYPAD_BUTTON_A, true⟩)
  settings_get_rtc_trim := fun _ => some (false, 0)
  wifi_handler_scan := fun _ => (ESP_OK, records)
  board_rtc_get_time := fun _ => some 0
  localtime_r := fun _ _ => some (7, 30)

/-- A hidden network: its SSID is empty. -/
def hidden_record : wifi_ap_record_t :=
  { ssid := [], bssid := [1, 2, 3, 4, 5, 6], rssi := -40, authmode := WIFI_AUTH_WPA2_PSK }

/-- The network `Home`. -/
def home_record : wifi_ap_record_t :=
  { ssid := "Home".toList, bssid := [10, 11, 12, 13, 14, 15], rssi := -70,
    authmode := WIFI_AUTH_WPA2_PSK }

/-- Two scan records: the hidden network, then the network `Home`. -/
def hidden_then_home : List wifi_ap_record_t := [hidden_record, home_record]

/-- The run in which the user opens "Setup" (5) and "RTC Calibration" (6) from
the main menu, chooses "Trim" (2) and then leaves the keypad alone: every later
screen returns the sentinel 255. -/
def trim_timeout_env : MenuEnv := menu_env [5, 6, 255] [2, 255] none

/-- The screens recorded in that run up to the call of
`setup_rtc_calibration_trim`. -/
def trim_timeout_prefix : List Event :=
  [.selection_list "Main Menu".toList 1 main_menu_list,
   .selection_list "Setup".toList 1 main_menu_setup_list,
   rtc_calibration_message false 0]

/-- The state in which `main_menu` returns in the run `trim_timeout_env`. -/
def trim_timeout_final : State :=
  { st0 with
    menu_timeout := true,
    trace := trim_timeout_prefix
      ++ [.selection_list "RTC Trim".toList 1 (rtc_trim_list false false 0),
          rtc_calibration_message false 0] }

/-- The state of the menu task, started in `st0` with the environment
`menu_env [0] [] none`, when it is idle for the second time: the idle face was
drawn, the button A opened the main menu, the user cancelled it, and the idle
face was drawn again. -/
def idle_again : State :=
  { st0 with
    menu_visible := false,
    trace := [.semaphore true, .draw "display_clear" [], .draw_time 7 30 false false,
      .semaphore false, .keypad_wait (-1), .semaphore true, .semaphore false,
      .selection_list "Main Menu".toList 1 main_menu_list,
      .semaphore true, .draw "display_clear" [], .draw_time 7 30 false false,
      .semaphore false] }

/-- A mounted card on which every directory opens and is empty. -/
def empty_card_env : Env :=
  { demo_env [] true true with readdir := fun _ _ => some [] }

/-! ## Lemmas on the C string primitives -/

theorem strlen_content (s r : List Char) (h : NUL ∉ s) :
    strlen (s ++ NUL :: r) = .ok s.length := by
  induction s with
  | nil => simp [strlen]
  | cons c cs ih =>
    simp only [List.mem_cons, not_or] at h
    have hc : c ≠ NUL := fun e => h.1 e.symm
    simp [strlen, hc, ih h.2, Except.map]

theorem strchr_scan_none (s r : List Char) (i : Nat) (h0 : NUL ∉ s) (h1 : NL ∉ s) :
    strchr_scan NL (s ++ NUL :: r) i = .ok none := by
  induction s generalizing i with
  | nil => simp [strchr_scan]; decide
  | cons c cs ih =>
    simp only [List.mem_cons, not_or] at h0 h1
    have hc : c ≠ NUL := fun e => h0.1 e.symm
    have hn : c ≠ NL := fun e => h1.1 e.symm
    simp [strchr_scan, hc, hn, ih (i + 1) h0.2 h1.2]

theorem strchr_scan_some (a b : List Char) (i : Nat) (h0 : NUL ∉ a) (h1 : NL ∉ a) :
    strchr_scan NL (a ++ NL :: b) i = .ok (some (i + a.length)) := by
  induction a generalizing i with
  | nil => simp [strchr_scan]
  | cons c cs ih =>
    simp only [List.mem_cons, not_or] at h0 h1
    have hc : c ≠ NUL := fun e => h0.1 e.symm
    have hn : c ≠ NL := fun e => h1.1 e.symm
    simp [strchr_scan, hc, hn, ih (i + 1) h0.2 h1.2]
    omega

theorem split_seg_no_delim (s : List Char) : NL ∉ (split_seg s).1 := by
  induction s with
  | nil => simp [split_seg]
  | cons c cs ih =>
    by_cases hc : c = NL
    · simp [split_seg, hc]
    · simp only [split_seg, hc, if_false, List.mem_cons, not_or]
      exact ⟨fun e => hc e.symm, ih⟩

theorem split_seg_eq (s : List Char) :
    s = (split_seg s).1 ++ (match (split_seg s).2 with
      | none => []
      | some b => NL :: b) := by
  induction s with
  | nil => simp [split_seg]
  | cons c cs ih =>
    by_cases hc : c = NL
    · simp [split_seg, hc]
    · simp only [split_seg, hc, if_false, List.cons_append]
      rw [← ih]

theorem split_seg_append (a b : List Char) (h : NL ∉ a) :
    split_seg (a ++ NL :: b) = (a, some b) := by
  induction a with
  | nil => simp [split_seg]
  | cons c cs ih =>
    simp only [List.mem_cons, not_or] at h
    have hn : c ≠ NL := fun e => h.1 e.symm
    simp [split_seg, hn, ih h.2]

theorem split_seg_last (a : List Char) (h : NL ∉ a) : split_seg a = (a, none) := by
  induction a with
  | nil => simp [split_seg]
  | cons c cs ih =>
    simp only [List.mem_cons, not_or] at h
    have hn : c ≠ NL := fun e => h.1 e.symm
    simp [split_seg, hn, ih h.2]

/-! ## The loop of the codec computes `locate` -/

theorem strchr_at (pre s rest : List Char) (h0 : NUL ∉ s) :
    strchr (pre ++ s ++ NUL :: rest) pre.length NL =
      .ok (match (split_seg s).2 with
        | none => none
        | some _ => some (pre.length + (split_seg s).1.length)) := by
  have hd : (pre ++ s ++ NUL :: rest).drop pre.length = s ++ NUL :: rest := by
    rw [List.append_assoc, List.drop_left]
  unfold strchr
  rw [hd]
  have hs := split_seg_eq s
  have hn := split_seg_no_delim s
  cases hr : (split_seg s).2 with
  | none =>
    rw [hr] at hs
    simp only [List.append_nil] at hs
    rw [← hs] at hn
    exact strchr_scan_none s rest pre.length h0 hn
  | some b =>
    rw [hr] at hs
    have h0a : NUL ∉ (split_seg s).1 := by
      intro hm
      apply h0
      rw [hs]
      exact List.mem_append_left _ hm
    have := strchr_scan_some (split_seg s).1 (b ++ NUL :: rest) pre.length h0a hn
    simp only
    rw [← this]
    congr 1
    conv_lhs => rw [hs]
    simp

theorem locate_last (off : Nat) (s : List Char) :
    locate 1 off s =
      if (split_seg s).1 = [] then none else some (off, (split_seg s).1.length) := by
  simp [locate]

theorem locate_more_none (m off : Nat) (s : List Char) (h : (split_seg s).2 = none) :
    locate (m + 2) off s = none := by
  simp [locate, h]

theorem locate_more_some (m off : Nat) (s b : List Char) (h : (split_seg s).2 = some b) :
    locate (m + 2) off s =
      if (split_seg s).1 = [] then none
      else locate (m + 1) (off + (split_seg s).1.length + 1) b := by
  simp [locate, h]

theorem loop_unfold (pre s rest : List Char) (len fuel : Nat) (i opt : Int) (p q : Option Nat)
    (hi : i < opt) (h0 : NUL ∉ s)
    (hentry : (p = none ∧ q = none ∧ pre = []) ∨
      (p ≠ none ∧ q = some (pre.length - 1) ∧ pre ≠ [])) :
    find_list_option_loop (pre ++ s ++ NUL :: rest) len opt (fuel + 1) i p q =
      match (split_seg s).2 with
      | none =>
        if i + 1 = opt then
          (if len ≤ pre.length then .ok (none, none)
           else find_list_option_loop (pre ++ s ++ NUL :: rest) len opt fuel (i + 1)
             (some pre.length) (some len))
        else .ok (none, none)
      | some _ =>
        if (split_seg s).1 = [] then .ok (none, none)
        else find_list_option_loop (pre ++ s ++ NUL :: rest) len opt fuel (i + 1)
          (some pre.length) (some (pre.length + (split_seg s).1.length)) := by
  have hp1 : (if p.isNone && q.isNone then (Except.ok 0 : Except Fault Nat)
             else ptr_succ q) = .ok pre.length := by
    rcases hentry with ⟨hp, hq, hpre⟩ | ⟨hp, hq, hpre⟩
    · simp [hp, hq, hpre]
    · have hl : 0 < pre.length := List.length_pos.mpr hpre
      have hpn : p.isNone = false := by
        cases p with
        | none => exact absurd rfl hp
        | some _ => rfl
      have : pre.length - 1 + 1 = pre.length := by omega
      simp [hpn, hq, ptr_succ, this]
  have hbody : find_list_option_body (pre ++ s ++ NUL :: rest) len opt i p q =
      (match strchr (pre ++ s ++ NUL :: rest) pre.length NL with
        | .error e => .error e
        | .ok q0 =>
          if ptr_ge (some pre.length)
              (if q0.isNone && decide (i + 1 = opt) then some len else q0)
          then .ok (true, none, none)
          else .ok (false, some pre.length,
              (if q0.isNone && decide (i + 1 = opt) then some len else q0))) := by
    unfold find_list_option_body
    rw [hp1]
  rw [find_list_option_loop, if_pos hi, hbody, strchr_at pre s rest h0]
  cases hr : (split_seg s).2 with
  | none =>
    by_cases hlast : i + 1 = opt
    · by_cases hle : len ≤ pre.length
      · simp [hlast, ptr_ge, hle]
      · simp [hlast, ptr_ge, hle]
    · simp [hlast, ptr_ge]
  | some b =>
    by_cases hseg : (split_seg s).1 = []
    · simp [hseg, ptr_ge]
    · have : 0 < (split_seg s).1.length := List.length_pos.mpr hseg
      simp [hseg, ptr_ge]

theorem loop_step (pre s rest : List Char) (n : Nat) (i : Int) (p q : Option Nat)
    (h0p : NUL ∉ pre) (h0 : NUL ∉ s)
    (hentry : (p = none ∧ q = none ∧ pre = []) ∨
      (p ≠ none ∧ q = some (pre.length - 1) ∧ pre ≠ [])) :
    find_list_option_loop (pre ++ s ++ NUL :: rest) (pre ++ s).length (i + (n + 1 : Nat))
        (n + 1) i p q
      = .ok (cursors (locate (n + 1) pre.length s)) := by
  induction n generalizing pre s i p q with
  | zero =>
    have hi : i < i + ((0 + 1 : Nat) : Int) := by simp
    rw [loop_unfold pre s rest _ 0 i _ p q hi h0 hentry, locate_last]
    have hs := split_seg_eq s
    have hdone : ∀ a b, find_list_option_loop (pre ++ s ++ NUL :: rest) (pre ++ s).length
        (i + ((0 + 1 : Nat) : Int)) 0 (i + 1) a b = .ok (a, b) := by
      intro a b
      simp [find_list_option_loop]
    simp only [hdone]
    cases hr : (split_seg s).2 with
    | none =>
      rw [hr] at hs
      simp only [List.append_nil] at hs
      rw [← hs]
      by_cases hseg : s = []
      · simp [hseg, cursors]
      · have : 0 < s.length := List.length_pos.mpr hseg
        have hlen : ¬ (pre.length + s.length ≤ pre.length) := by omega
        simp [hseg, cursors, hlen]
    | some b =>
      by_cases hseg : (split_seg s).1 = []
      · simp [hseg, cursors]
      · simp [hseg, cursors]
  | succ m ih =>
    have hi : i < i + ((m + 1 + 1 : Nat) : Int) := by
      have : (0 : Int) < ((m + 1 + 1 : Nat) : Int) := by positivity
      omega
    rw [loop_unfold pre s rest _ (m + 1) i _ p q hi h0 hentry]
    have hs := split_seg_eq s
    cases hr : (split_seg s).2 with
    | none =>
      have hne : ¬ (i + 1 = i + ((m + 1 + 1 : Nat) : Int)) := by
        push_cast
        omega
      simp only []
      rw [if_neg hne, locate_more_none m _ s hr]
      rfl
    | some b =>
      simp only []
      rw [locate_more_some m _ s b hr]
      by_cases hseg : (split_seg s).1 = []
      · rw [if_pos hseg, if_pos hseg]
        rfl
      · rw [hr] at hs
        rw [if_neg hseg, if_neg hseg]
        have h0a : NUL ∉ (split_seg s).1 := by
          intro hm
          apply h0
          rw [hs]
          exact List.mem_append_left _ hm
        have h0b : NUL ∉ b := by
          intro hm
          apply h0
          rw [hs]
          exact List.mem_append_right _ (List.mem_cons_of_mem _ hm)
        have hNN : NUL ≠ NL := by decide
        have h0p2 : NUL ∉ pre ++ (split_seg s).1 ++ [NL] := by
          simp only [List.mem_append, List.mem_singleton, not_or]
          exact ⟨⟨h0p, h0a⟩, hNN⟩
        have hmem : pre ++ s ++ NUL :: rest = (pre ++ (split_seg s).1 ++ [NL]) ++ b ++ NUL :: rest := by
          conv_lhs => rw [hs]
          simp
        have hlen : (pre ++ s).length = ((pre ++ (split_seg s).1 ++ [NL]) ++ b).length := by
          conv_lhs => rw [hs]
          simp
        have hopt : i + ((m + 1 + 1 : Nat) : Int) = (i + 1) + ((m + 1 : Nat) : Int) := by
          push_cast
          omega
        have key := ih (pre ++ (split_seg s).1 ++ [NL]) b (i + 1) (some pre.length)
          (some (pre.length + (split_seg s).1.length)) h0p2 h0b
          (Or.inr ⟨by simp, by simp, by simp⟩)
        have hl2 : (pre ++ (split_seg s).1 ++ [NL]).length
            = pre.length + (split_seg s).1.length + 1 := by
          simp only [List.length_append, List.length_singleton]
        rw [hmem, hlen, hopt, key, hl2]

theorem find_list_option_locate_rest (content rest : List Char) (option : Int)
    (h0 : NUL ∉ content) :
    find_list_option (content ++ NUL :: rest) option = .ok (locate option.toNat 0 content) := by
  unfold find_list_option
  rw [strlen_content content rest h0]
  simp only
  cases hn : option.toNat with
  | zero =>
    have : ¬ ((0 : Int) < option) := by
      intro h
      have := Int.toNat_of_nonneg (le_of_lt h)
      omega
    simp [find_list_option_loop, this, locate]
  | succ n =>
    have hopt : option = (0 : Int) + ((n + 1 : Nat) : Int) := by
      have hpos : 0 ≤ option := by
        by_contra hneg
        have : option.toNat = 0 := Int.toNat_eq_zero.mpr (by omega)
        omega
      have := Int.toNat_of_nonneg hpos
      omega
    have key := loop_step [] content rest n 0 none none (by simp) h0 (Or.inl ⟨rfl, rfl, rfl⟩)
    simp only [List.nil_append, List.length_nil] at key
    rw [hopt, key]
    cases hl : locate (n + 1) 0 content with
    | none => simp [cursors]
    | some r =>
      obtain ⟨a, l⟩ := r
      simp [cursors]

theorem find_list_option_eq_locate (content : List Char) (option : Int) (h0 : NUL ∉ content) :
    find_list_option (content ++ [NUL]) option = .ok (locate option.toNat 0 content) :=
  find_list_option_locate_rest content [] option h0

/-! ## Bounds of a located segment -/

theorem split_seg_some (s seg b : List Char) (h : split_seg s = (seg, some b)) :
    s = seg ++ NL :: b ∧ NL ∉ seg := by
  have hs := split_seg_eq s
  have hn := split_seg_no_delim s
  rw [h] at hs hn
  exact ⟨hs, hn⟩

theorem split_seg_none (s seg : List Char) (h : split_seg s = (seg, none)) :
    s = seg ∧ NL ∉ seg := by
  have hs := split_seg_eq s
  have hn := split_seg_no_delim s
  rw [h] at hs hn
  simp only [List.append_nil] at hs
  exact ⟨hs, hn⟩

theorem locate_bounds (n off : Nat) (s : List Char) (a l : Nat)
    (h : locate n off s = some (a, l)) :
    1 ≤ l ∧ off ≤ a ∧ a + l ≤ off + s.length ∧ NL ∉ (s.drop (a - off)).take l := by
  induction n generalizing off s with
  | zero => simp [locate] at h
  | succ m ih =>
    rcases hsp : split_seg s with ⟨seg, r⟩
    cases m with
    | zero =>
      rw [locate_last, hsp] at h
      by_cases hseg : seg = []
      · simp [hseg] at h
      · have hpos : 0 < seg.length := List.length_pos.mpr hseg
        simp only [hseg, if_false, Option.some.injEq, Prod.mk.injEq] at h
        obtain ⟨ha, hl⟩ := h
        subst ha
        subst hl
        have hsn : s = seg ++ (match r with
            | none => []
            | some b => NL :: b) ∧ NL ∉ seg := by
          cases r with
          | none =>
            have := split_seg_none s seg hsp
            simpa using this
          | some b => exact split_seg_some s seg b hsp
        obtain ⟨hs, hn⟩ := hsn
        refine ⟨hpos, le_refl _, ?_, ?_⟩
        · rw [hs]
          simp only [List.length_append]
          omega
        · rw [Nat.sub_self, List.drop_zero, hs, List.take_left]
          exact hn
    | succ m2 =>
      cases r with
      | none =>
        rw [locate_more_none m2 off s (by rw [hsp])] at h
        exact absurd h (by simp)
      | some b =>
        rw [locate_more_some m2 off s b (by rw [hsp]), hsp] at h
        by_cases hseg : seg = []
        · simp [hseg] at h
        · simp only [hseg, if_false] at h
          obtain ⟨hs, _⟩ := split_seg_some s seg b hsp
          obtain ⟨h1, h2, h3, h4⟩ := ih _ b h
          have hsl : s.length = seg.length + 1 + b.length := by
            rw [hs]
            simp only [List.length_append, List.length_cons]
            omega
          refine ⟨h1, by omega, by omega, ?_⟩
          have hdrop : s.drop (a - off) = b.drop (a - (off + seg.length + 1)) := by
            have e : a - off = (seg ++ [NL]).length + (a - (off + seg.length + 1)) := by
              simp only [List.length_append, List.length_singleton]
              omega
            have hs2 : s = (seg ++ [NL]) ++ b := by
              rw [hs]
              simp
            rw [e, hs2, List.drop_append]
          rw [hdrop]
          exact h4

/-! ## Well-formed lists of labels -/

theorem serialize_single (l : List Char) (t : Bool) :
    serialize [l] t = l ++ (if t then [NL] else []) := by
  simp [serialize, List.intercalate]

theorem serialize_cons_cons (l l2 : List Char) (ls : List (List Char)) (t : Bool) :
    serialize (l :: l2 :: ls) t = l ++ NL :: serialize (l2 :: ls) t := by
  simp [serialize, List.intercalate]

theorem label_offset_zero (labels : List (List Char)) : label_offset labels 0 = 0 := by
  simp [label_offset]

theorem label_offset_succ (l : List Char) (ls : List (List Char)) (j : Nat) :
    label_offset (l :: ls) (j + 1) = l.length + 1 + label_offset ls j := by
  simp [label_offset]

theorem split_seg_serialize_single (l : List Char) (t : Bool) (h : NL ∉ l) :
    split_seg (serialize [l] t) = (l, if t then some [] else none) := by
  rw [serialize_single]
  cases t with
  | false => simpa using split_seg_last l h
  | true => simpa using split_seg_append l [] h

theorem split_seg_serialize_cons (l l2 : List Char) (ls : List (List Char)) (t : Bool)
    (h : NL ∉ l) :
    split_seg (serialize (l :: l2 :: ls) t) = (l, some (serialize (l2 :: ls) t)) := by
  rw [serialize_cons_cons]
  exact split_seg_append l _ h

theorem locate_nil (n off : Nat) : locate n off [] = none := by
  cases n with
  | zero => rfl
  | succ m =>
    cases m with
    | zero => simp [locate_last, split_seg]
    | succ m2 => exact locate_more_none m2 off [] rfl

theorem locate_serialize_found (labels : List (List Char)) (t : Bool) (off j : Nat)
    (l : List Char) (hlab : ∀ x ∈ labels, x ≠ [] ∧ NL ∉ x) (hj : labels[j]? = some l) :
    locate (j + 1) off (serialize labels t) = some (off + label_offset labels j, l.length) := by
  induction labels generalizing off j with
  | nil => simp at hj
  | cons x xs ih =>
    have hx := hlab x (List.mem_cons_self _ _)
    have hxs : ∀ y ∈ xs, y ≠ [] ∧ NL ∉ y := fun y hy => hlab y (List.mem_cons_of_mem _ hy)
    cases j with
    | zero =>
      simp only [List.getElem?_cons_zero, Option.some.injEq] at hj
      subst hj
      rw [locate_last, label_offset_zero]
      cases xs with
      | nil => simp [split_seg_serialize_single x t hx.2, hx.1]
      | cons y ys => simp [split_seg_serialize_cons x y ys t hx.2, hx.1]
    | succ j2 =>
      simp only [List.getElem?_cons_succ] at hj
      cases xs with
      | nil => simp at hj
      | cons y ys =>
        have hsp := split_seg_serialize_cons x y ys t hx.2
        rw [locate_more_some j2 off _ _ (by rw [hsp]), hsp]
        simp only [hx.1, if_false]
        rw [ih _ j2 hxs hj, label_offset_succ]
        congr 2
        omega

theorem locate_serialize_none (labels : List (List Char)) (t : Bool) (off j : Nat)
    (hne : labels ≠ []) (hlab : ∀ x ∈ labels, x ≠ [] ∧ NL ∉ x) (hj : labels.length ≤ j) :
    locate (j + 1) off (serialize labels t) = none := by
  induction labels generalizing off j with
  | nil => exact absurd rfl hne
  | cons x xs ih =>
    have hx := hlab x (List.mem_cons_self _ _)
    have hxs : ∀ y ∈ xs, y ≠ [] ∧ NL ∉ y := fun y hy => hlab y (List.mem_cons_of_mem _ hy)
    cases j with
    | zero => simp at hj
    | succ j2 =>
      simp only [List.length_cons, Nat.add_le_add_iff_right] at hj
      cases xs with
      | nil =>
        have hsp := split_seg_serialize_single x t hx.2
        cases t with
        | false => exact locate_more_none j2 off _ (by rw [hsp]; rfl)
        | true =>
          rw [locate_more_some j2 off _ [] (by rw [hsp]; rfl), locate_nil]
          simp
      | cons y ys =>
        have hsp := split_seg_serialize_cons x y ys t hx.2
        rw [locate_more_some j2 off _ _ (by rw [hsp]), hsp]
        simp only [hx.1, if_false]
        exact ih _ j2 (by simp) hxs hj

theorem serialize_extract (labels : List (List Char)) (t : Bool) (j : Nat) (l : List Char)
    (hj : labels[j]? = some l) :
    ((serialize labels t).drop (label_offset labels j)).take l.length = l := by
  induction labels generalizing j with
  | nil => simp at hj
  | cons x xs ih =>
    cases j with
    | zero =>
      simp only [List.getElem?_cons_zero, Option.some.injEq] at hj
      subst hj
      rw [label_offset_zero, List.drop_zero]
      cases xs with
      | nil => rw [serialize_single, List.take_left]
      | cons y ys => rw [serialize_cons_cons, List.take_left]
    | succ j2 =>
      simp only [List.getElem?_cons_succ] at hj
      cases xs with
      | nil => simp at hj
      | cons y ys =>
        rw [serialize_cons_cons, label_offset_succ]
        have e : x ++ NL :: serialize (y :: ys) t = (x ++ [NL]) ++ serialize (y :: ys) t := by
          simp
        have e2 : x.length + 1 + label_offset (y :: ys) j2
            = (x ++ [NL]).length + label_offset (y :: ys) j2 := by simp
        rw [e, e2, List.drop_append]
        exact ih j2 hj

theorem serialize_no_nul (labels : List (List Char)) (t : Bool)
    (h : ∀ x ∈ labels, NUL ∉ x) : NUL ∉ serialize labels t := by
  have hNN : NUL ≠ NL := by decide
  induction labels with
  | nil => cases t <;> simp [serialize, List.intercalate, hNN]
  | cons x xs ih =>
    have hx := h x (List.mem_cons_self _ _)
    have hxs : ∀ y ∈ xs, NUL ∉ y := fun y hy => h y (List.mem_cons_of_mem _ hy)
    cases xs with
    | nil =>
      rw [serialize_single]
      cases t <;> simp [hx, hNN]
    | cons y ys =>
      rw [serialize_cons_cons]
      simp only [List.mem_append, List.mem_cons, not_or]
      exact ⟨hx, hNN, ih hxs⟩

/-! ## Claims on the list codec -/

/-- C1: in a list of `N ≥ 1` non-empty labels without delimiter, joined by single
delimiters and with or without one trailing delimiter, `find_list_option` returns
for the ordinal `j + 1` (`j < N`) the start offset and the length of the label
number `j + 1`, and these delimit exactly that label in the buffer; for an
ordinal `k ≤ 0` or `k ≥ N + 1` it returns `NULL`. -/
theorem find_list_option_labels (labels : List (List Char)) (trailing : Bool) (k : Int)
    (hN : labels ≠ [])
    (hlab : ∀ l ∈ labels, l ≠ [] ∧ NL ∉ l ∧ NUL ∉ l) :
    (∀ (j : Nat) (l : List Char), labels[j]? = some l → k = (j : Int) + 1 →
      find_list_option (serialize labels trailing ++ [NUL]) k
          = .ok (some (label_offset labels j, l.length)) ∧
        ((serialize labels trailing).drop (label_offset labels j)).take l.length = l) ∧
    (k ≤ 0 ∨ (labels.length : Int) + 1 ≤ k →
      find_list_option (serialize labels trailing ++ [NUL]) k = .ok none) := by
  have h0 : NUL ∉ serialize labels trailing :=
    serialize_no_nul labels trailing (fun x hx => (hlab x hx).2.2)
  have hl : ∀ x ∈ labels, x ≠ [] ∧ NL ∉ x := fun x hx => ⟨(hlab x hx).1, (hlab x hx).2.1⟩
  rw [find_list_option_eq_locate _ k h0]
  constructor
  · intro j l hj hk
    have hkn : k.toNat = j + 1 := by
      rw [hk]
      exact Int.toNat_natCast (j + 1)
    rw [hkn, locate_serialize_found labels trailing 0 j l hl hj, Nat.zero_add]
    exact ⟨rfl, serialize_extract labels trailing j l hj⟩
  · intro hk
    rcases hk with hk | hk
    · have : k.toNat = 0 := Int.toNat_eq_zero.mpr hk
      rw [this]
      rfl
    · have hpos : 0 ≤ k := by omega
      obtain ⟨n, hn⟩ := Int.eq_ofNat_of_zero_le hpos
      have hkn : k.toNat = (n - 1) + 1 := by
        rw [hn, Int.toNat_natCast]
        omega
      rw [hkn, locate_serialize_none labels trailing 0 (n - 1) hN hl (by omega)]

/-- C1, instance: in the list `"ab\nc\n"` of two labels with a trailing delimiter
the ordinal 2 addresses the label `"c"` at offset 3. -/
theorem find_list_option_labels_witness :
    find_list_option ("ab\nc\n".toList ++ [NUL]) 2 = .ok (some (3, 1)) ∧
      ("ab\nc\n".toList.drop 3).take 1 = "c".toList :=
  (find_list_option_labels ["ab".toList, "c".toList] true 2 (by decide) (by decide)).1
    1 "c".toList rfl rfl

/-- C2: for every NUL-terminated list, well-formed or not, and every integer
ordinal.  On the buffer that holds the string and its terminator and nothing
more, `find_list_option` reads no byte outside the buffer (the result is not a
fault), that is no position beyond `strlen(list)`; and whatever bytes `rest` lie
in memory after the terminator, the result is the same.  A reported segment
`(start, length)` has `length ≥ 1`, lies within the first `strlen(list)` bytes and
contains no delimiter; otherwise the result is `NULL`. -/
theorem find_list_option_safe (content : List Char) (option : Int) (h0 : NUL ∉ content) :
    strlen (content ++ [NUL]) = .ok content.length ∧
    ∃ r, find_list_option (content ++ [NUL]) option = .ok r ∧
      (∀ rest, find_list_option (content ++ NUL :: rest) option = .ok r) ∧
      ∀ start length, r = some (start, length) →
        1 ≤ length ∧ start + length ≤ content.length ∧
          NL ∉ (content.drop start).take length := by
  refine ⟨strlen_content content [] h0, _, find_list_option_eq_locate content option h0,
    fun rest => find_list_option_locate_rest content rest option h0, ?_⟩
  intro start length hr
  have := locate_bounds _ 0 content start length hr
  simpa using this

/-- C2, instance: a malformed list with a leading, two adjacent and a trailing
delimiter, in which the ordinal 2 addresses nothing. -/
theorem find_list_option_safe_witness :
    strlen ("\na\n\nb\n".toList ++ [NUL]) = .ok 6 ∧
    ∃ r, find_list_option ("\na\n\nb\n".toList ++ [NUL]) 2 = .ok r ∧
      (∀ rest, find_list_option ("\na\n\nb\n".toList ++ NUL :: rest) 2 = .ok r) ∧
      ∀ start length, r = some (start, length) →
        1 ≤ length ∧ start + length ≤ 6 ∧
          NL ∉ ("\na\n\nb\n".toList.drop start).take length :=
  find_list_option_safe "\na\n\nb\n".toList 2 (by decide)

/-! ## Segments addressed through the delimiters -/

theorem delims_of_split_none (s seg : List Char) (off : Nat) (h : split_seg s = (seg, none)) :
    delims s off = [] := by
  induction s generalizing seg off with
  | nil => rfl
  | cons c cs ih =>
    by_cases hc : c = NL
    · simp [split_seg, hc] at h
    · simp only [split_seg, hc, if_false, Prod.mk.injEq] at h
      simp only [delims, hc, if_false]
      exact ih (split_seg cs).1 (off + 1) (by rw [← h.2])

theorem delims_of_split_some (s seg b : List Char) (off : Nat)
    (h : split_seg s = (seg, some b)) :
    delims s off = (off + seg.length) :: delims b (off + seg.length + 1) := by
  induction s generalizing seg off with
  | nil => simp [split_seg] at h
  | cons c cs ih =>
    by_cases hc : c = NL
    · simp only [split_seg, hc, if_true, Prod.mk.injEq, Option.some.injEq] at h
      obtain ⟨h1, h2⟩ := h
      subst h1
      subst h2
      simp [delims, hc]
    · simp only [split_seg, hc, if_false, Prod.mk.injEq] at h
      obtain ⟨h1, h2⟩ := h
      subst h1
      simp only [delims, hc, if_false, List.length_cons]
      rw [ih (split_seg cs).1 (off + 1) (by rw [← h2])]
      congr 1
      · omega
      · congr 1
        omega

theorem delims_ge (s : List Char) (off : Nat) : ∀ d ∈ delims s off, off ≤ d := by
  induction s generalizing off with
  | nil => simp [delims]
  | cons c cs ih =>
    intro d hd
    by_cases hc : c = NL
    · simp only [delims, hc, if_true, List.mem_cons] at hd
      rcases hd with hd | hd
      · omega
      · have := ih (off + 1) d hd
        omega
    · simp only [delims, hc, if_false] at hd
      have := ih (off + 1) d hd
      omega

theorem locate_empty_first (n off : Nat) (s : List Char) (h : (split_seg s).1 = []) :
    locate (n + 1) off s = none := by
  cases n with
  | zero => simp [locate_last, h]
  | succ m =>
    cases hr : (split_seg s).2 with
    | none => exact locate_more_none m off s hr
    | some b => simp [locate_more_some m off s b hr, h]

theorem locate_eq_seg_at (n off : Nat) (s : List Char)
    (H : ∀ j, j ≤ n → ∃ a l, seg_at j off s = some (a, l) ∧ 0 < l) :
    locate (n + 1) off s = seg_at n off s := by
  induction n generalizing off s with
  | zero =>
    obtain ⟨a, l, h, hl⟩ := H 0 (le_refl _)
    simp only [seg_at, Option.some.injEq, Prod.mk.injEq] at h
    have hne : (split_seg s).1 ≠ [] := by
      intro e
      rw [e] at h
      simp at h
      omega
    simp [locate_last, hne, seg_at]
  | succ m ih =>
    obtain ⟨a, l, h, hl⟩ := H 0 (Nat.zero_le _)
    simp only [seg_at, Option.some.injEq, Prod.mk.injEq] at h
    have hne : (split_seg s).1 ≠ [] := by
      intro e
      rw [e] at h
      simp at h
      omega
    cases hr : (split_seg s).2 with
    | none =>
      obtain ⟨a1, l1, h1, _⟩ := H 1 (by omega)
      simp [seg_at, hr] at h1
    | some b =>
      rw [locate_more_some m off s b hr, if_neg hne]
      have hshift : ∀ j, seg_at (j + 1) off s
          = seg_at j (off + (split_seg s).1.length + 1) b := by
        intro j
        simp [seg_at, hr]
      rw [hshift m]
      apply ih
      intro j hj
      rw [← hshift j]
      exact H (j + 1) (by omega)

theorem locate_none_of_empty (n off : Nat) (s : List Char) (j : Nat) (hj : j ≤ n)
    (H : ∀ a l, seg_at j off s = some (a, l) → l = 0) :
    locate (n + 1) off s = none := by
  induction n generalizing off s j with
  | zero =>
    have hj0 : j = 0 := by omega
    subst hj0
    have := H off (split_seg s).1.length (by simp [seg_at])
    exact locate_empty_first 0 off s (List.length_eq_zero.mp this)
  | succ m ih =>
    cases j with
    | zero =>
      have := H off (split_seg s).1.length (by simp [seg_at])
      exact locate_empty_first (m + 1) off s (List.length_eq_zero.mp this)
    | succ j2 =>
      cases hr : (split_seg s).2 with
      | none => exact locate_more_none m off s hr
      | some b =>
        rw [locate_more_some m off s b hr]
        by_cases hseg : (split_seg s).1 = []
        · simp [hseg]
        · rw [if_neg hseg]
          apply ih _ b j2 (by omega)
          intro a l h
          apply H a l
          simp [seg_at, hr, h]

theorem seg_at_eq_delims (j off : Nat) (s : List Char) :
    seg_at j off s =
      match (if j = 0 then some off else ((delims s off)[j - 1]?).map (· + 1)) with
      | none => none
      | some st => some (st, (split_seg (s.drop (st - off))).1.length) := by
  induction j generalizing off s with
  | zero => simp [seg_at]
  | succ j2 ih =>
    rcases hsp : split_seg s with ⟨seg, r⟩
    cases r with
    | none =>
      have hd := delims_of_split_none s seg off hsp
      simp [seg_at, hsp, hd]
    | some b =>
      have hd := delims_of_split_some s seg b off hsp
      obtain ⟨hs, _⟩ := split_seg_some s seg b hsp
      have hshift : seg_at (j2 + 1) off s = seg_at j2 (off + seg.length + 1) b := by
        simp [seg_at, hsp]
      rw [hshift, ih, hd]
      have hdrop : ∀ st, off + seg.length + 1 ≤ st →
          s.drop (st - off) = b.drop (st - (off + seg.length + 1)) := by
        intro st hst
        have e : st - off = (seg ++ [NL]).length + (st - (off + seg.length + 1)) := by
          simp only [List.length_append, List.length_singleton]
          omega
        have hs2 : s = (seg ++ [NL]) ++ b := by
          rw [hs]
          simp
        rw [e, hs2, List.drop_append]
      cases j2 with
      | zero =>
        simp only [if_true, Nat.zero_add, if_false, one_ne_zero, Nat.sub_self,
          List.getElem?_cons_zero, Option.map_some']
        rw [hdrop _ (le_refl _), Nat.sub_self]
      | succ j3 =>
        simp only [Nat.add_eq_zero, one_ne_zero, and_false, if_false, Nat.add_sub_cancel,
          List.getElem?_cons_succ]
        cases hg : (delims b (off + seg.length + 1))[j3]? with
        | none => simp
        | some d =>
          have hge := delims_ge b (off + seg.length + 1) d (List.getElem?_mem hg)
          simp only [Option.map_some']
          rw [hdrop _ (by omega)]

theorem seg_at_eq_segment (k : Nat) (hk : 1 ≤ k) (s : List Char) :
    seg_at (k - 1) 0 s =
      match seg_start s k with
      | none => none
      | some st => some (st, seg_end s st - st) := by
  rw [seg_at_eq_delims]
  have e : (if k - 1 = 0 then some 0 else ((delims s 0)[k - 1 - 1]?).map (· + 1))
      = seg_start s k := by
    unfold seg_start nth_delim
    by_cases h1 : k = 1
    · simp [h1]
    · have : ¬ (k - 1 = 0) := by omega
      simp [h1, this]
  rw [e]
  cases seg_start s k with
  | none => rfl
  | some st => simp [seg_end]

/-- C3 (amended): for a list `s` and an ordinal `k ≥ 1` whose segment exists (the
list has at least `k - 1` delimiters), the segment starts at the buffer start
(`k = 1`) or just after the `(k-1)`-th delimiter and ends at the next delimiter or
at the end of the buffer.  `find_list_option` returns exactly that segment when
each of the segments `1..k` has its start before its end, and returns `NULL` as
soon as one of the segments `1..k` is missing or empty. -/
theorem find_list_option_segment (s : List Char) (k st : Nat) (h0 : NUL ∉ s) (hk : 1 ≤ k)
    (hst : seg_start s k = some st) :
    ((∀ j, 1 ≤ j → j ≤ k → ∃ sj, seg_start s j = some sj ∧ sj < seg_end s sj) →
      find_list_option (s ++ [NUL]) (k : Int) = .ok (some (st, seg_end s st - st))) ∧
    ((∃ j, 1 ≤ j ∧ j ≤ k ∧ ∀ sj, seg_start s j = some sj → seg_end s sj ≤ sj) →
      find_list_option (s ++ [NUL]) (k : Int) = .ok none) := by
  rw [find_list_option_eq_locate s k h0, Int.toNat_natCast]
  obtain ⟨n, rfl⟩ : ∃ n, k = n + 1 := ⟨k - 1, by omega⟩
  constructor
  · intro H
    rw [locate_eq_seg_at n 0 s]
    · have := seg_at_eq_segment (n + 1) hk s
      rw [Nat.add_sub_cancel] at this
      rw [this, hst]
    · intro j hj
      obtain ⟨sj, h1, h2⟩ := H (j + 1) (by omega) (by omega)
      have := seg_at_eq_segment (j + 1) (by omega) s
      rw [Nat.add_sub_cancel] at this
      rw [this, h1]
      exact ⟨sj, seg_end s sj - sj, rfl, by omega⟩
  · rintro ⟨j, hj1, hjk, H⟩
    congr 1
    apply locate_none_of_empty n 0 s (j - 1) (by omega)
    intro a l h
    have hseg := seg_at_eq_segment j hj1 s
    rw [hseg] at h
    cases hs : seg_start s j with
    | none => simp [hs] at h
    | some sj =>
      simp only [hs, Option.some.injEq, Prod.mk.injEq] at h
      have := H sj hs
      omega

/-- C3, instance: in `"ab\nc\nd"` the ordinal 3 addresses the last segment, which
runs from offset 5 to the end of the buffer. -/
theorem find_list_option_segment_witness :
    find_list_option ("ab\nc\nd".toList ++ [NUL]) 3 = .ok (some (5, 1)) :=
  (find_list_option_segment "ab\nc\nd".toList 3 5 (by decide) (by decide) (by decide)).1
    (fun j h1 h2 => by
      have hj : j = 1 ∨ j = 2 ∨ j = 3 := by omega
      rcases hj with rfl | rfl | rfl
      · exact ⟨0, by decide, by decide⟩
      · exact ⟨3, by decide, by decide⟩
      · exact ⟨5, by decide, by decide⟩)

/-- C3, as stated, fails: in `"a\n\nb"` there are two delimiters, the segment
addressed by the ordinal 3 starts at offset 3, just after the second delimiter, and
ends at offset 4, the end of the buffer, so its start precedes its end; the empty
segment 2 makes `find_list_option` return `NULL` all the same. -/
theorem find_list_option_segment_counterexample :
    NUL ∉ "a\n\nb".toList ∧
    (delims "a\n\nb".toList 0).length = 2 ∧
    seg_start "a\n\nb".toList 3 = some 3 ∧
    seg_end "a\n\nb".toList 3 = 4 ∧
    find_list_option ("a\n\nb".toList ++ [NUL]) 3 = .ok none := by
  decide

/-! ## The option list of the file browser -/

theorem strrchr_ne_nil (s r : List Char) (c : Char) (h : strrchr s c = some r) : s ≠ [] := by
  intro e
  rw [e] at h
  simp [strrchr] at h

theorem accepted_ne_nil (e : dirent) (h : accepted e = true) : label e ≠ [] := by
  unfold label
  by_cases hd : e.d_type = DT_DIR
  · simp [hd]
  · simp only [hd, if_false]
    simp only [accepted, hd, decide_False, Bool.false_and, Bool.or_false, Bool.and_eq_true,
      Bool.or_eq_true, decide_eq_true_eq] at h
    rcases h.2 with h2 | h2
    · exact strrchr_ne_nil _ _ _ h2
    · exact strrchr_ne_nil _ _ _ h2

theorem show_file_picker_insert_eq (vp : List Char) (e : dirent) :
    show_file_picker_insert vp e = if accepted e then vp ++ (label e ++ [NL]) else vp := by
  have hRD : DT_REG ≠ DT_DIR := by decide
  have hins : ∀ (v d : List Char), vpool_insert v (vpool_get_length v) d d.length = v ++ d := by
    intro v d
    simp [vpool_insert, vpool_get_length]
  unfold show_file_picker_insert
  by_cases hr : e.d_type = DT_REG
  · have hnd : e.d_type ≠ DT_DIR := by
      rw [hr]
      exact hRD
    simp only [hr, if_true]
    cases hdot : strrchr e.d_name '.' with
    | none => simp [accepted, hr, hdot, hRD]
    | some dot =>
      by_cases hext : dot = ".vgm".toList ∨ dot = ".vgz".toList
      · have hacc : accepted e = true := by
          simp only [accepted, hr, hdot, Option.some.injEq]
          rcases hext with h | h <;> simp [h]
        simp only [hext, if_true, hacc]
        rw [hins]
        have h1 : vpool_insert (vp ++ e.d_name) (vpool_get_length (vp ++ e.d_name)) "\n".toList 1
            = (vp ++ e.d_name) ++ [NL] := hins (vp ++ e.d_name) [NL]
        rw [h1]
        simp [label, hnd]
      · have hacc : accepted e = false := by
          simp only [not_or] at hext
          have h1 : decide (dot = ".vgm".toList) = false := decide_eq_false hext.1
          have h2 : decide (dot = ".vgz".toList) = false := decide_eq_false hext.2
          have h3 : decide (DT_REG = DT_DIR) = false := decide_eq_false hRD
          simp only [accepted, hr, hdot, Option.some.injEq, h1, h2, h3]
          rfl
        simp only []
        rw [if_neg hext, hacc]
        rfl
  · simp only [hr, if_false]
    by_cases hd : e.d_type = DT_DIR ∧ e.d_name.headD NUL ≠ '.'
    · have hhead : e.d_name.head? ≠ some '.' := by
        intro hh
        apply hd.2
        cases hn : e.d_name with
        | nil => rw [hn] at hh; simp at hh
        | cons x xs =>
          rw [hn] at hh
          simp only [List.head?_cons, Option.some.injEq] at hh
          simp [hh]
      have hacc : accepted e = true := by
        simp [accepted, hd.1, hhead]
      simp only [hd, ne_eq, not_false_eq_true, and_self, if_true, hacc]
      rw [hins]
      have h1 : vpool_insert (vp ++ e.d_name) (vpool_get_length (vp ++ e.d_name)) "/\n".toList 2
          = (vp ++ e.d_name) ++ ['/', NL] := hins (vp ++ e.d_name) ['/', NL]
      rw [h1]
      simp [label, hd.1]
    · have hacc : accepted e = false := by
        simp only [accepted, hr, decide_False, Bool.false_and, Bool.false_or,
          Bool.and_eq_false_iff, decide_eq_false_iff_not, not_not]
        by_cases hdd : e.d_type = DT_DIR
        · right
          have : ¬ (e.d_name.headD NUL ≠ '.') := fun hx => hd ⟨hdd, hx⟩
          simp only [ne_eq, not_not] at this
          cases hn : e.d_name with
          | nil =>
            rw [hn] at this
            exact absurd this (by decide)
          | cons x xs =>
            rw [hn] at this
            simp only [List.headD_cons] at this
            simp [this]
        · left
          exact hdd
      rw [if_neg hd, hacc]
      rfl

theorem pool_of_append (a b : List (List Char)) : pool_of (a ++ b) = pool_of a ++ pool_of b := by
  induction a with
  | nil => rfl
  | cons x xs ih => simp [pool_of, ih]

theorem show_file_picker_build_eq (es : List dirent) (count : Nat) (vp : List Char) :
    show_file_picker_build es count vp =
      vp ++ pool_of (((es.take (UINT8_MAX - 2 - count)).filter accepted).map label) := by
  induction es generalizing count vp with
  | nil => simp [show_file_picker_build, pool_of]
  | cons e es ih =>
    rw [show_file_picker_build, ih]
    by_cases hc : count < UINT8_MAX - 2
    · have hsub : UINT8_MAX - 2 - count = (UINT8_MAX - 2 - (count + 1)) + 1 := by omega
      rw [if_pos hc, show_file_picker_insert_eq, hsub, List.take_succ_cons]
      by_cases ha : accepted e = true
      · simp [ha, pool_of]
      · simp [ha]
    · have h0 : UINT8_MAX - 2 - count = 0 := by omega
      have h1 : UINT8_MAX - 2 - (count + 1) = 0 := by omega
      rw [if_neg hc, h0, h1]
      simp

theorem pool_of_eq_serialize (labels : List (List Char)) (h : labels ≠ []) :
    pool_of labels = serialize labels false ++ [NL] := by
  induction labels with
  | nil => exact absurd rfl h
  | cons x xs ih =>
    cases xs with
    | nil => simp [pool_of, serialize_single]
    | cons y ys =>
      rw [pool_of, ih (by simp), serialize_cons_cons]
      simp

theorem show_file_picker_list_eq (namelist : List dirent) (h : kept namelist ≠ []) :
    show_file_picker_list namelist = serialize ((kept namelist).map label) false ++ [NUL] := by
  have hb := show_file_picker_build_eq namelist 0 []
  simp only [Nat.sub_zero, List.nil_append] at hb
  have hl : (kept namelist).map label ≠ [] := by simpa using h
  unfold show_file_picker_list
  simp only [hb, vpool_get_length]
  change (pool_of ((kept namelist).map label)).set
    ((pool_of ((kept namelist).map label)).length - 1) NUL = _
  rw [pool_of_eq_serialize _ hl]
  simp

theorem kept_labels_wf (namelist : List dirent)
    (hnames : ∀ e ∈ namelist, NL ∉ e.d_name ∧ NUL ∉ e.d_name) :
    ∀ l ∈ (kept namelist).map label, l ≠ [] ∧ NL ∉ l ∧ NUL ∉ l := by
  intro l hl
  simp only [List.mem_map] at hl
  obtain ⟨e, he, rfl⟩ := hl
  simp only [kept, List.mem_filter] at he
  obtain ⟨hmem, hacc⟩ := he
  have hn := hnames e (List.mem_of_mem_take hmem)
  refine ⟨accepted_ne_nil e hacc, ?_, ?_⟩
  · unfold label
    by_cases hd : e.d_type = DT_DIR
    · have : NL ≠ '/' := by decide
      simp [hd, hn.1, this]
    · simp [hd, hn.1]
  · unfold label
    by_cases hd : e.d_type = DT_DIR
    · have : NUL ≠ '/' := by decide
      simp [hd, hn.2, this]
    · simp [hd, hn.2]

theorem kept_length_le (namelist : List dirent) : (kept namelist).length ≤ UINT8_MAX - 2 := by
  unfold kept
  calc ((namelist.take (UINT8_MAX - 2)).filter accepted).length
      ≤ (namelist.take (UINT8_MAX - 2)).length := List.length_filter_le _ _
    _ ≤ UINT8_MAX - 2 := by simp

theorem find_list_option_kept (namelist : List dirent) (k : Int)
    (hnames : ∀ e ∈ namelist, NL ∉ e.d_name ∧ NUL ∉ e.d_name) (hc : kept namelist ≠ []) :
    find_list_option (show_file_picker_list namelist) k
      = .ok (locate k.toNat 0 (serialize ((kept namelist).map label) false)) := by
  have hwf := kept_labels_wf namelist hnames
  rw [show_file_picker_list_eq namelist hc]
  exact find_list_option_eq_locate _ k (serialize_no_nul _ false (fun x hx => (hwf x hx).2.2))

/-- C4: round trip of the list builder and the codec.  For a directory listing
whose names contain no delimiter and of which at least one entry is kept, the
pool holds the labels of the kept entries in order, each followed by a delimiter,
and the option list is the pool with its last delimiter replaced by the
terminator; `find_list_option` returns for every ordinal `j + 1 ≤ c` the bytes of
the label of the kept entry number `j + 1` (its name, with `'/'` appended for a
directory), and `NULL` for the ordinal `c + 1`. -/
theorem show_file_picker_round_trip (namelist : List dirent)
    (hnames : ∀ e ∈ namelist, NL ∉ e.d_name ∧ NUL ∉ e.d_name)
    (hc : kept namelist ≠ []) :
    show_file_picker_build namelist 0 [] = pool_of ((kept namelist).map label) ∧
    show_file_picker_list namelist = serialize ((kept namelist).map label) false ++ [NUL] ∧
    (∀ (j : Nat) (e : dirent), (kept namelist)[j]? = some e →
      ∃ start,
        find_list_option (show_file_picker_list namelist) ((j : Int) + 1)
          = .ok (some (start, (label e).length)) ∧
        ((show_file_picker_list namelist).drop start).take (label e).length = label e) ∧
    find_list_option (show_file_picker_list namelist) (((kept namelist).length : Int) + 1)
      = .ok none := by
  have hwf := kept_labels_wf namelist hnames
  have hwf2 : ∀ x ∈ (kept namelist).map label, x ≠ [] ∧ NL ∉ x :=
    fun x hx => ⟨(hwf x hx).1, (hwf x hx).2.1⟩
  have hl : (kept namelist).map label ≠ [] := by simpa using hc
  refine ⟨?_, show_file_picker_list_eq namelist hc, ?_, ?_⟩
  · have hb := show_file_picker_build_eq namelist 0 []
    simpa [kept] using hb
  · intro j e hj
    have hj2 : ((kept namelist).map label)[j]? = some (label e) := by
      simp [List.getElem?_map, hj]
    refine ⟨label_offset ((kept namelist).map label) j, ?_, ?_⟩
    · rw [find_list_option_kept namelist _ hnames hc]
      have : ((j : Int) + 1).toNat = j + 1 := Int.toNat_natCast (j + 1)
      rw [this, locate_serialize_found _ false 0 j (label e) hwf2 hj2, Nat.zero_add]
    · rw [show_file_picker_list_eq namelist hc]
      have hle : label_offset ((kept namelist).map label) j + (label e).length
          ≤ (serialize ((kept namelist).map label) false).length := by
        have hloc := locate_serialize_found _ false 0 j (label e) hwf2 hj2
        have := locate_bounds _ _ _ _ _ hloc
        omega
      rw [List.drop_append_of_le_length (by omega), List.take_append_of_le_length]
      · exact serialize_extract _ false j (label e) hj2
      · rw [List.length_drop]
        omega
  · rw [find_list_option_kept namelist _ hnames hc]
    have : (((kept namelist).length : Int) + 1).toNat = (kept namelist).length + 1 :=
      Int.toNat_natCast ((kept namelist).length + 1)
    rw [this, locate_serialize_none _ false 0 _ hl hwf2 (by simp)]

/-- C4, instance: the listing `Sub`, `a.vgm`, `b.vgm` gives the option list
`"Sub/\na.vgm\nb.vgm"`, in which the ordinals 1, 2, 3 address its three labels and
the ordinal 4 nothing. -/
theorem show_file_picker_round_trip_witness :
    show_file_picker_list demo_namelist = "Sub/\na.vgm\nb.vgm".toList ++ [NUL] ∧
    (∃ start, find_list_option (show_file_picker_list demo_namelist) 1
        = .ok (some (start, 4)) ∧
      ((show_file_picker_list demo_namelist).drop start).take 4 = "Sub/".toList) ∧
    find_list_option (show_file_picker_list demo_namelist) 4 = .ok none :=
  have h := show_file_picker_round_trip demo_namelist (by decide) (by decide)
  ⟨h.2.1, h.2.2.1 0 ⟨DT_DIR, "Sub".toList⟩ rfl, h.2.2.2⟩

/-- C5 (amended): for every directory listing whose names contain no delimiter,
whatever its size, at most 253 (`UINT8_MAX - 2`) entries are kept, and every
ordinal that `find_list_option` resolves in the option list built from it lies in
`1..c ⊆ 1..253`, where `c` is the number of kept entries; so neither 0 nor 255 is
the ordinal of an option. -/
theorem show_file_picker_ordinals (namelist : List dirent)
    (hnames : ∀ e ∈ namelist, NL ∉ e.d_name ∧ NUL ∉ e.d_name) :
    (kept namelist).length ≤ 253 ∧
    (kept namelist ≠ [] → ∀ (k : Int) (r : Nat × Nat),
      find_list_option (show_file_picker_list namelist) k = .ok (some r) →
        1 ≤ k ∧ k ≤ ((kept namelist).length : Int) ∧ k ≤ 253 ∧ k ≠ 0 ∧ k ≠ 255) := by
  have hlen : (kept namelist).length ≤ 253 := kept_length_le namelist
  refine ⟨hlen, ?_⟩
  intro hc k r hfind
  have hwf := kept_labels_wf namelist hnames
  have hwf2 : ∀ x ∈ (kept namelist).map label, x ≠ [] ∧ NL ∉ x :=
    fun x hx => ⟨(hwf x hx).1, (hwf x hx).2.1⟩
  have hl : (kept namelist).map label ≠ [] := by simpa using hc
  rw [find_list_option_kept namelist k hnames hc] at hfind
  have hloc : locate k.toNat 0 (serialize ((kept namelist).map label) false) = some r := by
    simpa using hfind
  have h1 : 1 ≤ k := by
    by_contra hneg
    have : k.toNat = 0 := Int.toNat_eq_zero.mpr (by omega)
    rw [this] at hloc
    simp [locate] at hloc
  have h2 : k ≤ ((kept namelist).length : Int) := by
    by_contra hneg
    obtain ⟨n, hn⟩ := Int.eq_ofNat_of_zero_le (by omega : 0 ≤ k)
    have hkn : k.toNat = (n - 1) + 1 := by
      rw [hn, Int.toNat_natCast]
      omega
    rw [hkn, locate_serialize_none _ false 0 (n - 1) hl hwf2
      (by simp only [List.length_map]; omega)] at hloc
    simp at hloc
  omega

/-- C5, instance: the listing `Sub`, `a.vgm`, `b.vgm`. -/
theorem show_file_picker_ordinals_witness :
    (kept demo_namelist).length ≤ 253 ∧
    (kept demo_namelist ≠ [] → ∀ (k : Int) (r : Nat × Nat),
      find_list_option (show_file_picker_list demo_namelist) k = .ok (some r) →
        1 ≤ k ∧ k ≤ ((kept demo_namelist).length : Int) ∧ k ≤ 253 ∧ k ≠ 0 ∧ k ≠ 255) :=
  show_file_picker_ordinals demo_namelist (by decide)

set_option maxRecDepth 1000000 in
/-- C5, as stated for every directory listing, fails: two directories whose names
contain delimiters are two kept entries, yet the option list built from them has
256 options, and `find_list_option` resolves in it the ordinal 254, beyond 253,
and the ordinal 255 that is reserved for the timeout. -/
theorem show_file_picker_ordinals_counterexample :
    (kept nl_namelist).length = 2 ∧
    find_list_option (show_file_picker_list nl_namelist) 254 = .ok (some (507, 1)) ∧
    find_list_option (show_file_picker_list nl_namelist) 255 = .ok (some (509, 1)) := by
  decide

set_option maxRecDepth 1000000 in
/-- C6, the code at a failing input: a sorted directory of 254 regular files, of
which only the last, `z.vgm`, is accepted.  There is one accepted entry, far fewer
than 253, yet it is not in the list: the pool stays empty, because `count` counts
every entry of the scan and has reached 253 when `z.vgm` is looked at. -/
theorem show_file_picker_build_crowded :
    crowded_namelist.length = 254 ∧
    crowded_namelist.filter accepted = [⟨DT_REG, "z.vgm".toList⟩] ∧
    kept crowded_namelist = [] ∧
    show_file_picker_build crowded_namelist 0 [] = [] := by
  decide

/-! ## The selection loop of the file browser -/

theorem find_list_option_label (content : List Char) (k : Int) (value file_len : Nat)
    (h0 : NUL ∉ content)
    (hfind : find_list_option (content ++ [NUL]) k = .ok (some (value, file_len))) :
    1 ≤ file_len ∧ value + file_len ≤ content.length ∧
      ((content ++ [NUL]).drop value).take file_len = (content.drop value).take file_len ∧
      ((content.drop value).take file_len).length = file_len := by
  rw [find_list_option_eq_locate content k h0] at hfind
  have hloc : locate k.toNat 0 content = some (value, file_len) := by simpa using hfind
  obtain ⟨h1, _, h3, _⟩ := locate_bounds _ _ _ _ _ hloc
  have h3' : value + file_len ≤ content.length := by omega
  refine ⟨h1, h3', ?_, ?_⟩
  · rw [List.drop_append_of_le_length (by omega), List.take_append_of_le_length]
    rw [List.length_drop]
    omega
  · rw [List.length_take, List.length_drop]
    omega

theorem filename_last (path lab : List Char) (h : lab ≠ []) :
    (path ++ '/' :: lab)[path.length + lab.length]? = lab.getLast? := by
  have e : path ++ '/' :: lab = (path ++ ['/']) ++ lab := by simp
  have hl : 0 < lab.length := List.length_pos.mpr h
  rw [e, List.getElem?_append_right
    (by simp only [List.length_append, List.length_singleton]; omega)]
  have : path.length + lab.length - (path ++ ['/']).length = lab.length - 1 := by
    simp only [List.length_append, List.length_singleton]
    omega
  rw [this, List.getLast?_eq_getElem?]

theorem filename_truncate (path lab : List Char) (h : lab ≠ []) :
    (path ++ '/' :: lab).take (path.length + lab.length) = path ++ '/' :: lab.dropLast := by
  have e : path ++ '/' :: lab = path ++ ('/' :: lab) := rfl
  rw [e, List.take_append]
  cases lab with
  | nil => exact absurd rfl h
  | cons x xs =>
    simp only [List.length_cons, List.take_succ_cons, List.cons.injEq, true_and,
      List.append_cancel_left_eq]
    rw [List.dropLast_eq_take]
    simp

/-- C7 (amended): at any pass of the selection loop of any directory level, with
no callback supplied: when the selection screen returns an ordinal `k` (a value
other than the timeout value 255) that addresses in the option list a label not
ending in `'/'`, the loop, and with it `show_file_picker_impl`, returns exactly
`path ++ "/" ++ label` if the allocation of the file name succeeds, and `NULL` if
`malloc` fails.  In both cases the only call recorded since the pass began is that
of the selection screen: no further screen is presented. -/
theorem show_file_picker_file_selected (env : Env)
    (recurse : List Char → List Char → State → Except Fault (Option (List Char) × State))
    (fuel : Nat) (title path content : List Char) (option : Nat) (st : State)
    (k value file_len : Nat)
    (h0 : NUL ∉ content)
    (hk : env.display_selection_list st.trace title option (content ++ [NUL]) % 256 = k)
    (hord : k ≠ UINT8_MAX)
    (hfind : find_list_option (content ++ [NUL]) k = .ok (some (value, file_len)))
    (hfile : ((content.drop value).take file_len).getLast? ≠ some '/') :
    show_file_picker_loop env none recurse (fuel + 1) title path (content ++ [NUL]) option st
      = .ok (if env.malloc (st.trace ++ [.selection_list title option (content ++ [NUL])])
              (path.length + file_len + 2) = true
            then some (path ++ '/' :: (content.drop value).take file_len)
            else none,
          st.log (.selection_list title option (content ++ [NUL]))) := by
  obtain ⟨h1, _, hlab, hlen⟩ := find_list_option_label content k value file_len h0 hfind
  have hne : (content.drop value).take file_len ≠ [] := by
    intro e
    rw [e] at hlen
    simp at hlen
    omega
  have hlast := filename_last path _ hne
  rw [hlen] at hlast
  rw [show_file_picker_loop, hk]
  cases hmalloc : env.malloc (st.trace ++ [.selection_list title option (content ++ [NUL])])
      (path.length + file_len + 2) with
  | false =>
    simp only [show_file_picker_body, hord, if_false, hfind, State.log, hmalloc, if_true,
      Bool.false_eq_true]
  | true =>
    simp only [show_file_picker_body, hord, if_false, hfind, State.log, hmalloc, hlab, hlast,
      hfile, Bool.true_eq_false, if_true]

theorem show_file_picker_impl_listed (env : Env) (cb : Option (List Event → List Char → Bool))
    (fuel : Nat) (title path : List Char) (st : State) (namelist : List dirent)
    (hscan : scandir env st.trace path = some namelist)
    (hpool : vpool_is_empty (show_file_picker_build namelist 0 []) = false) :
    show_file_picker_impl env cb (fuel + 1) title path st
      = show_file_picker_loop env cb (show_file_picker_impl env cb fuel) fuel title path
          (show_file_picker_list namelist) 1 st := by
  rw [show_file_picker_impl, hscan]
  simp [hpool]

/-- C7, instance (the scenario of the specification): the entries `b.vgm`, `a.vgm`
and the directory `Sub` are listed as `Sub/`, `a.vgm`, `b.vgm`, and selecting the
second option, `a.vgm`, without callback returns `/sdcard/a.vgm` after that one
screen. -/
theorem show_file_picker_file_selected_witness :
    scandir (demo_env [2] true true) [] "/sdcard".toList = some demo_namelist ∧
    show_file_picker_list demo_namelist = "Sub/\na.vgm\nb.vgm".toList ++ [NUL] ∧
    show_file_picker_impl (demo_env [2] true true) none 2 "Demo".toList "/sdcard".toList st0
      = .ok (some "/sdcard/a.vgm".toList,
          st0.log (.selection_list "Demo".toList 1 ("Sub/\na.vgm\nb.vgm".toList ++ [NUL]))) :=
  ⟨by decide, by decide,
    (show_file_picker_impl_listed (demo_env [2] true true) none 1 "Demo".toList
      "/sdcard".toList st0 demo_namelist (by decide) (by decide)).trans
    (show_file_picker_file_selected (demo_env [2] true true)
      (show_file_picker_impl (demo_env [2] true true) none 1) 0 "Demo".toList "/sdcard".toList
      "Sub/\na.vgm\nb.vgm".toList 1 st0 2 5 5 (by decide) (by decide) (by decide) (by decide)
      (by decide))⟩

/-- C7, as stated, fails: same card and same selection of `a.vgm`, without
callback, but `malloc` returns `NULL`; the browser then leaves the loop through
`break` and returns `NULL`, not `/sdcard/a.vgm`. -/
theorem show_file_picker_file_selected_counterexample :
    find_list_option (show_file_picker_list demo_namelist) 2 = .ok (some (5, 5)) ∧
    ((show_file_picker_list demo_namelist).drop 5).take 5 = "a.vgm".toList ∧
    show_file_picker_impl (demo_env [2] false true) none 2 "Demo".toList "/sdcard".toList st0
      = .ok (none,
          st0.log (.selection_list "Demo".toList 1 ("Sub/\na.vgm\nb.vgm".toList ++ [NUL]))) := by
  decide

/-- C8 (amended): at any pass of the selection loop of any directory level and for
any callback: when the selection screen returns an ordinal `k` (a value other than
the timeout value 255) that addresses a label ending in `'/'`, and both
allocations succeed (the path by `malloc`, the title by `strndup`), the level
calls `show_file_picker_impl` with the label as title, with the path
`path ++ "/" ++ name`, where `name` is the label without its last byte, and with
the same callback.  If that call returns a path, the level returns the same path
and the state of the nested call at once, with nothing presented in between; if
it returns `NULL`, the loop condition decides.  When one of the allocations fails,
the level returns `NULL` without a recursive call. -/
theorem show_file_picker_dir_selected (env : Env)
    (cb : Option (List Event → List Char → Bool))
    (d fuel : Nat) (title path content : List Char) (option : Nat) (st : State)
    (k value file_len : Nat)
    (h0 : NUL ∉ content)
    (hk : env.display_selection_list st.trace title option (content ++ [NUL]) % 256 = k)
    (hord : k ≠ UINT8_MAX)
    (hfind : find_list_option (content ++ [NUL]) k = .ok (some (value, file_len)))
    (hdir : ((content.drop value).take file_len).getLast? = some '/') :
    show_file_picker_loop env cb (show_file_picker_impl env cb d) (fuel + 1) title path
        (content ++ [NUL]) option st
      = if env.malloc (st.trace ++ [.selection_list title option (content ++ [NUL])])
            (path.length + file_len + 2) = true ∧
          env.strndup (st.trace ++ [.selection_list title option (content ++ [NUL])])
            ((content ++ [NUL]).drop value) file_len = true
        then
          match show_file_picker_impl env cb d ((content.drop value).take file_len)
              (path ++ '/' :: ((content.drop value).take file_len).dropLast)
              (st.log (.selection_list title option (content ++ [NUL]))) with
          | .error e => .error e
          | .ok (some r, st2) => .ok (some r, st2)
          | .ok (none, st2) =>
            if 0 < k ∧ st2.menu_timeout = false then
              show_file_picker_loop env cb (show_file_picker_impl env cb d) fuel title path
                (content ++ [NUL]) k st2
            else .ok (none, st2)
        else .ok (none, st.log (.selection_list title option (content ++ [NUL]))) := by
  obtain ⟨h1, _, hlab, hlen⟩ := find_list_option_label content k value file_len h0 hfind
  have hne : (content.drop value).take file_len ≠ [] := by
    intro e
    rw [e] at hlen
    simp at hlen
    omega
  have hlast := filename_last path _ hne
  have htrunc := filename_truncate path _ hne
  rw [hlen] at hlast htrunc
  rw [show_file_picker_loop, hk]
  cases hmalloc : env.malloc (st.trace ++ [.selection_list title option (content ++ [NUL])])
      (path.length + file_len + 2) with
  | false =>
    simp only [show_file_picker_body, hord, if_false, hfind, State.log, hmalloc, if_true,
      Bool.false_eq_true, false_and]
  | true =>
    cases hdup : env.strndup (st.trace ++ [.selection_list title option (content ++ [NUL])])
        ((content ++ [NUL]).drop value) file_len with
    | false =>
      simp only [show_file_picker_body, hord, if_false, hfind, State.log, hmalloc, hdup, hlab,
        hlast, hdir, Bool.true_eq_false, if_true, Bool.false_eq_true, and_false]
    | true =>
      simp only [show_file_picker_body, hord, if_false, hfind, State.log, hmalloc, hdup, hlab,
        hlast, hdir, htrunc, Bool.true_eq_false, if_true, and_self]
      cases hrec : show_file_picker_impl env cb d ((content.drop value).take file_len)
          (path ++ '/' :: ((content.drop value).take file_len).dropLast)
          { st with trace := st.trace ++ [.selection_list title option (content ++ [NUL])] } with
      | error e => rfl
      | ok res =>
        obtain ⟨r, st2⟩ := res
        cases r with
        | none => rfl
        | some r => rfl

/-- C8, instance: selecting `Sub/` and then `c.vgm` in it, without callback,
returns `/sdcard/Sub/c.vgm` to the caller of the top level; the top-level list is
presented once. -/
theorem show_file_picker_dir_selected_witness :
    show_file_picker_impl (demo_env [1, 1] true true) none 3 "Demo".toList "/sdcard".toList st0
      = .ok (some "/sdcard/Sub/c.vgm".toList,
          (st0.log (.selection_list "Demo".toList 1 ("Sub/\na.vgm\nb.vgm".toList ++ [NUL]))).log
            (.selection_list "Sub/".toList 1 ("c.vgm".toList ++ [NUL]))) :=
  (show_file_picker_impl_listed (demo_env [1, 1] true true) none 2 "Demo".toList
    "/sdcard".toList st0 demo_namelist (by decide) (by decide)).trans
  ((show_file_picker_dir_selected (demo_env [1, 1] true true) none 2 1 "Demo".toList
    "/sdcard".toList "Sub/\na.vgm\nb.vgm".toList 1 st0 1 0 4 (by decide) (by decide)
    (by decide) (by decide) (by decide)).trans (by decide))

/-- C8, as stated, fails: the first option, `Sub/`, ends with `'/'`, but `strndup`
returns `NULL`; the browser then leaves the loop through `break` without the
recursive call (the list of `Sub` is never presented) and returns `NULL`. -/
theorem show_file_picker_dir_selected_counterexample :
    find_list_option (show_file_picker_list demo_namelist) 1 = .ok (some (0, 4)) ∧
    ((show_file_picker_list demo_namelist).drop 0).take 4 = "Sub/".toList ∧
    show_file_picker_impl (demo_env [1] true false) none 3 "Demo".toList "/sdcard".toList st0
      = .ok (none,
          st0.log (.selection_list "Demo".toList 1 ("Sub/\na.vgm\nb.vgm".toList ++ [NUL]))) := by
  decide

/-- C9, the code at a failing input: the card holds `/sdcard/Sub/c.vgm`, the
callback returns `true` for every file, and the user selects `Sub/`, then `c.vgm`.
The callback is invoked with `/sdcard/Sub/c.vgm` and returns `true`, which ends
the loop of `Sub` only: the list of the enclosing directory `/sdcard` is presented
again (fourth recorded call), where the user has to leave with Cancel. -/
theorem show_file_picker_callback_nested :
    show_file_picker (demo_env [1, 1, 0] true true) (some (fun _ _ => true)) 3 "Demo".toList st0
      = .ok (none,
          { st0 with trace :=
            [.selection_list "Demo".toList 1 ("Sub/\na.vgm\nb.vgm".toList ++ [NUL]),
             .selection_list "Sub/".toList 1 ("c.vgm".toList ++ [NUL]),
             .callback "/sdcard/Sub/c.vgm".toList,
             .selection_list "Demo".toList 1 ("Sub/\na.vgm\nb.vgm".toList ++ [NUL])] }) := by
  decide

/-! ## Cancel and timeout in the file browser -/

theorem find_list_option_zero (content : List Char) (h0 : NUL ∉ content) :
    find_list_option (content ++ [NUL]) ((0 : Nat) : Int) = .ok none := by
  rw [find_list_option_eq_locate content _ h0]
  rfl

theorem show_file_picker_loop_timed_out (env : Env)
    (cb : Option (List Event → List Char → Bool))
    (recurse : List Char → List Char → State → Except Fault (Option (List Char) × State))
    (hrec : ∀ t p s r s', recurse t p s = .ok (r, s') → s.menu_timeout = false →
      s'.menu_timeout = true →
      r = none ∧ ∃ pre t2 o l, s'.trace = pre ++ [.selection_list t2 o l] ∧
        env.display_selection_list pre t2 o l % 256 = UINT8_MAX)
    (fuel : Nat) (title path list : List Char) (option : Nat) (st : State)
    (r : Option (List Char)) (st' : State)
    (hrun : show_file_picker_loop env cb recurse fuel title path list option st = .ok (r, st'))
    (hclear : st.menu_timeout = false) (hset : st'.menu_timeout = true) :
    r = none ∧ ∃ pre t2 o l, st'.trace = pre ++ [.selection_list t2 o l] ∧
      env.display_selection_list pre t2 o l % 256 = UINT8_MAX := by
  induction fuel generalizing option st with
  | zero => simp [show_file_picker_loop] at hrun
  | succ fuel ih =>
    rw [show_file_picker_loop] at hrun
    generalize hk : env.display_selection_list st.trace title option list % 256 = k at hrun
    have hst1 : (st.log (.selection_list title option list)).menu_timeout = false := hclear
    generalize hs1 : st.log (.selection_list title option list) = st1 at hrun hst1
    have htr : st1.trace = st.trace ++ [.selection_list title option list] := by
      rw [← hs1]
      rfl
    -- what the body can do
    have hbody : ∀ fl s2, show_file_picker_body env cb recurse path list k st1 = .ok (fl, s2) →
        (s2.menu_timeout = true →
          (fl = .brk none ∨ fl = .next) ∧ ∃ pre t2 o l, s2.trace = pre ++ [.selection_list t2 o l] ∧
            env.display_selection_list pre t2 o l % 256 = UINT8_MAX) := by
      intro fl s2 hb hs2
      unfold show_file_picker_body at hb
      by_cases h255 : k = UINT8_MAX
      · simp only [h255, if_true, Except.ok.injEq, Prod.mk.injEq] at hb
        obtain ⟨hfl, hs⟩ := hb
        refine ⟨Or.inl hfl.symm, st.trace, title, option, list, ?_, ?_⟩
        · rw [← hs]
          exact htr
        · rw [hk]
          exact h255
      · simp only [h255, if_false] at hb
        cases hf : find_list_option list k with
        | error e => simp [hf] at hb
        | ok res =>
          cases res with
          | none =>
            simp only [hf, Except.ok.injEq, Prod.mk.injEq] at hb
            rw [← hb.2, hst1] at hs2
            exact absurd hs2 (by simp)
          | some vf =>
            obtain ⟨value, file_len⟩ := vf
            simp only [hf] at hb
            split at hb
            · simp only [Except.ok.injEq, Prod.mk.injEq] at hb
              rw [← hb.2, hst1] at hs2
              exact absurd hs2 (by simp)
            · split at hb
              · split at hb
                · simp only [Except.ok.injEq, Prod.mk.injEq] at hb
                  rw [← hb.2, hst1] at hs2
                  exact absurd hs2 (by simp)
                · split at hb
                  · simp at hb
                  · rename_i r2 s3 hcall
                    simp only [Except.ok.injEq, Prod.mk.injEq] at hb
                    rw [← hb.2] at hs2
                    have := (hrec _ _ _ _ _ hcall hst1 hs2).1
                    simp at this
                  · rename_i s3 hcall
                    simp only [Except.ok.injEq, Prod.mk.injEq] at hb
                    rw [← hb.2] at hs2 ⊢
                    exact ⟨Or.inr hb.1.symm, (hrec _ _ _ _ _ hcall hst1 hs2).2⟩
              · cases cb with
                | none =>
                  simp only [Except.ok.injEq, Prod.mk.injEq] at hb
                  rw [← hb.2, hst1] at hs2
                  exact absurd hs2 (by simp)
                | some f =>
                  simp only at hb
                  split at hb
                  · simp only [Except.ok.injEq, Prod.mk.injEq] at hb
                    rw [← hb.2] at hs2
                    have : (st1.log (.callback (path ++ '/' :: (list.drop value).take
                        file_len))).menu_timeout = false := hst1
                    rw [this] at hs2
                    exact absurd hs2 (by simp)
                  · simp only [Except.ok.injEq, Prod.mk.injEq] at hb
                    rw [← hb.2] at hs2
                    have : (st1.log (.callback (path ++ '/' :: (list.drop value).take
                        file_len))).menu_timeout = false := hst1
                    rw [this] at hs2
                    exact absurd hs2 (by simp)
    cases hb : show_file_picker_body env cb recurse path list k st1 with
    | error e => simp [hb] at hrun
    | ok res =>
      obtain ⟨fl, s2⟩ := res
      rw [hb] at hrun
      cases fl with
      | brk r2 =>
        simp only [Except.ok.injEq, Prod.mk.injEq] at hrun
        obtain ⟨hr, hs⟩ := hrun
        subst hs
        have := hbody _ _ hb hset
        refine ⟨?_, this.2⟩
        rcases this.1 with h | h
        · simp only [Flow.brk.injEq] at h
          rw [← hr, h]
        · simp at h
      | next =>
        simp only at hrun
        by_cases hcont : 0 < k ∧ s2.menu_timeout = false
        · rw [if_pos hcont] at hrun
          exact ih k s2 hrun hcont.2
        · rw [if_neg hcont] at hrun
          simp only [Except.ok.injEq, Prod.mk.injEq] at hrun
          obtain ⟨hr, hs⟩ := hrun
          subst hs
          exact ⟨hr.symm, (hbody _ _ hb hset).2⟩

theorem show_file_picker_impl_timed_out (env : Env)
    (cb : Option (List Event → List Char → Bool)) (d : Nat) :
    ∀ (title path : List Char) (st : State) (r : Option (List Char)) (st' : State),
      show_file_picker_impl env cb d title path st = .ok (r, st') →
      st.menu_timeout = false → st'.menu_timeout = true →
      r = none ∧ ∃ pre t2 o l, st'.trace = pre ++ [.selection_list t2 o l] ∧
        env.display_selection_list pre t2 o l % 256 = UINT8_MAX := by
  induction d with
  | zero =>
    intro title path st r st' hrun
    simp [show_file_picker_impl] at hrun
  | succ d ih =>
    intro title path st r st' hrun hclear hset
    rw [show_file_picker_impl] at hrun
    have hmsg : ∀ e, .ok (none, st.log e) = (.ok (r, st') : Except Fault _) → False := by
      intro e h
      simp only [Except.ok.injEq, Prod.mk.injEq] at h
      have : (st.log e).menu_timeout = false := hclear
      rw [h.2, hset] at this
      exact absurd this (by simp)
    cases hscan : scandir env st.trace path with
    | none =>
      rw [hscan] at hrun
      simp only at hrun
      split at hrun
      · exact absurd hrun (hmsg _)
      · split at hrun
        · exact absurd hrun (hmsg _)
        · exact absurd hrun (hmsg _)
    | some namelist =>
      rw [hscan] at hrun
      simp only at hrun
      split at hrun
      · exact absurd hrun (hmsg _)
      · exact show_file_picker_loop_timed_out env cb (show_file_picker_impl env cb d) ih d
          title path _ 1 st r st' hrun hclear hset

/-- C10: in the file browser, at every nesting depth.  (1) When the selection
screen returns 0, the loop of the level ends and the level returns `NULL`; the
only call recorded is that of the selection screen, so the callback was not
invoked, and the flags are unchanged.  (2) When it returns 255, the same holds and
`menu_timeout` is set.  (3) Whenever a pass through the loop body ends with
`menu_timeout` set, for instance because a nested level timed out, the loop
returns at once, without another pass.  (4) Whenever a call of
`show_file_picker_impl` that began with `menu_timeout` clear returns with
`menu_timeout` set, it returns `NULL`, and the last recorded call is the selection
screen that returned 255: after the timeout no level has presented a list or
invoked the callback. -/
theorem show_file_picker_cancel_timeout (env : Env)
    (cb : Option (List Event → List Char → Bool))
    (recurse : List Char → List Char → State → Except Fault (Option (List Char) × State))
    (fuel : Nat) (title path content : List Char) (option : Nat) (st : State)
    (h0 : NUL ∉ content) :
    (env.display_selection_list st.trace title option (content ++ [NUL]) % 256 = 0 →
      show_file_picker_loop env cb recurse (fuel + 1) title path (content ++ [NUL]) option st
        = .ok (none, st.log (.selection_list title option (content ++ [NUL])))) ∧
    (env.display_selection_list st.trace title option (content ++ [NUL]) % 256 = UINT8_MAX →
      show_file_picker_loop env cb recurse (fuel + 1) title path (content ++ [NUL]) option st
        = .ok (none, { st.log (.selection_list title option (content ++ [NUL])) with
            menu_timeout := true })) ∧
    (∀ (fl : Flow) (st1 : State),
      show_file_picker_body env cb recurse path (content ++ [NUL])
        (env.display_selection_list st.trace title option (content ++ [NUL]) % 256)
        (st.log (.selection_list title option (content ++ [NUL]))) = .ok (fl, st1) →
      st1.menu_timeout = true →
      show_file_picker_loop env cb recurse (fuel + 1) title path (content ++ [NUL]) option st
        = .ok ((match fl with
            | .brk r => r
            | .next => none), st1)) ∧
    (∀ (d : Nat) (title1 path1 : List Char) (s : State) (r : Option (List Char)) (s' : State),
      show_file_picker_impl env cb d title1 path1 s = .ok (r, s') →
      s.menu_timeout = false → s'.menu_timeout = true →
      r = none ∧ ∃ pre t o l, s'.trace = pre ++ [.selection_list t o l] ∧
        env.display_selection_list pre t o l % 256 = UINT8_MAX) := by
  refine ⟨?_, ?_, ?_, ?_⟩
  · intro hk
    have hz : (0 : Nat) ≠ UINT8_MAX := by decide
    rw [show_file_picker_loop, hk]
    simp only [show_file_picker_body, hz, if_false, find_list_option_zero content h0]
    simp
  · intro hk
    rw [show_file_picker_loop, hk]
    simp [show_file_picker_body]
  · intro fl st1 hb hset
    rw [show_file_picker_loop, hb]
    cases fl with
    | brk r => rfl
    | next => simp [hset]
  · intro d
    exact show_file_picker_impl_timed_out env cb d

/-- C10, instance: the user selects `Sub/` and then lets the list of `Sub` time
out.  The nested level sets `menu_timeout` and returns `NULL`, and so does the top
level, whose list is not presented again: the last recorded call is the list of
`Sub`. -/
theorem show_file_picker_cancel_timeout_witness :
    show_file_picker_loop (demo_env [1, 255] true true) none
        (show_file_picker_impl (demo_env [1, 255] true true) none 1) 1 "Sub/".toList
        "/sdcard/Sub".toList ("c.vgm".toList ++ [NUL]) 1
        (st0.log (.selection_list "Demo".toList 1 ("Sub/\na.vgm\nb.vgm".toList ++ [NUL])))
      = .ok (none,
          { menu_visible := true, alarm_set := false, time_twentyfour := false,
            menu_timeout := true,
            trace := [.selection_list "Demo".toList 1 ("Sub/\na.vgm\nb.vgm".toList ++ [NUL]),
              .selection_list "Sub/".toList 1 ("c.vgm".toList ++ [NUL])] }) ∧
    show_file_picker (demo_env [1, 255] true true) none 3 "Demo".toList st0
      = .ok (none,
          { menu_visible := true, alarm_set := false, time_twentyfour := false,
            menu_timeout := true,
            trace := [.selection_list "Demo".toList 1 ("Sub/\na.vgm\nb.vgm".toList ++ [NUL]),
              .selection_list "Sub/".toList 1 ("c.vgm".toList ++ [NUL])] }) :=
  ⟨(show_file_picker_cancel_timeout (demo_env [1, 255] true true) none
      (show_file_picker_impl (demo_env [1, 255] true true) none 1) 0 "Sub/".toList
      "/sdcard/Sub".toList "c.vgm".toList 1
      (st0.log (.selection_list "Demo".toList 1 ("Sub/\na.vgm\nb.vgm".toList ++ [NUL])))
      (by decide)).2.1 (by decide),
   by decide⟩

/-! ## Error screens of the file browser -/

theorem pool_of_eq_nil (labels : List (List Char)) : pool_of labels = [] ↔ labels = [] := by
  cases labels with
  | nil => simp [pool_of]
  | cons x xs => simp [pool_of]

theorem show_file_picker_pool_empty (namelist : List dirent) :
    vpool_is_empty (show_file_picker_build namelist 0 []) = true ↔ kept namelist = [] := by
  have hb := show_file_picker_build_eq namelist 0 []
  simp only [Nat.sub_zero, List.nil_append] at hb
  rw [hb, vpool_is_empty, List.isEmpty_iff, pool_of_eq_nil]
  simp [kept]

/-- C11: `show_file_picker_impl` presents a list screen only when the directory
was opened and at least one entry was kept.  (1) When `scandir` fails, it shows
exactly one message and returns `NULL`: "SD card was not detected" if the card is
not detected, else "SD card could not be accessed" if it is not mounted, else
"Could not open the directory".  (2) When the directory is opened and no entry is
kept, it shows exactly the message "No files found" and returns `NULL`.  (3) When
the directory is opened and an entry is kept, it enters the selection loop, which
presents the list.  (4) Hence a run that has recorded a call of the selection
screen has opened the directory and kept an entry. -/
theorem show_file_picker_impl_errors (env : Env) (cb : Option (List Event → List Char → Bool))
    (fuel : Nat) (title path : List Char) (st : State) :
    (scandir env st.trace path = none →
      show_file_picker_impl env cb (fuel + 1) title path st
        = .ok (none, st.log (.message "Error"
            (some (if env.sdcard_is_detected st.trace = false then "SD card was not detected"
              else if env.sdcard_is_mounted st.trace = false then "SD card could not be accessed"
              else "Could not open the directory")) none " OK "))) ∧
    (∀ namelist, scandir env st.trace path = some namelist → kept namelist = [] →
      show_file_picker_impl env cb (fuel + 1) title path st
        = .ok (none, st.log (.message "Error" (some "No files found") none " OK "))) ∧
    (∀ namelist, scandir env st.trace path = some namelist → kept namelist ≠ [] →
      show_file_picker_impl env cb (fuel + 1) title path st
        = show_file_picker_loop env cb (show_file_picker_impl env cb fuel) fuel title path
            (show_file_picker_list namelist) 1 st) ∧
    (∀ r st', show_file_picker_impl env cb (fuel + 1) title path st = .ok (r, st') →
      (∃ t o l, Event.selection_list t o l ∈ st'.trace.drop st.trace.length) →
      ∃ namelist, scandir env st.trace path = some namelist ∧ kept namelist ≠ []) := by
  have h1 : scandir env st.trace path = none →
      show_file_picker_impl env cb (fuel + 1) title path st
        = .ok (none, st.log (.message "Error"
            (some (if env.sdcard_is_detected st.trace = false then "SD card was not detected"
              else if env.sdcard_is_mounted st.trace = false then "SD card could not be accessed"
              else "Could not open the directory")) none " OK ")) := by
    intro hscan
    rw [show_file_picker_impl, hscan]
    simp only
    split
    · rfl
    · split
      · rfl
      · rfl
  have h2 : ∀ namelist, scandir env st.trace path = some namelist → kept namelist = [] →
      show_file_picker_impl env cb (fuel + 1) title path st
        = .ok (none, st.log (.message "Error" (some "No files found") none " OK ")) := by
    intro namelist hscan hk
    rw [show_file_picker_impl, hscan]
    simp only [(show_file_picker_pool_empty namelist).mpr hk, if_true]
  have hmsg : ∀ (e : Event) (r : Option (List Char)) (st' : State),
      (.ok (none, st.log e) : Except Fault _) = .ok (r, st') → (∀ t o l, e ≠ .selection_list t o l) →
      ¬ ∃ t o l, Event.selection_list t o l ∈ st'.trace.drop st.trace.length := by
    intro e r st' h hne
    simp only [Except.ok.injEq, Prod.mk.injEq] at h
    rw [← h.2]
    simp only [State.log, List.drop_left, List.mem_singleton]
    rintro ⟨t, o, l, hm⟩
    exact hne t o l hm.symm
  refine ⟨h1, h2, ?_, ?_⟩
  · intro namelist hscan hk
    have hne : vpool_is_empty (show_file_picker_build namelist 0 []) = false := by
      cases hv : vpool_is_empty (show_file_picker_build namelist 0 []) with
      | false => rfl
      | true => exact absurd ((show_file_picker_pool_empty namelist).mp hv) hk
    exact show_file_picker_impl_listed env cb fuel title path st namelist hscan hne
  · intro r st' hrun hsel
    cases hscan : scandir env st.trace path with
    | none =>
      rw [h1 hscan] at hrun
      exact absurd hsel (hmsg _ r st' hrun (by intro t o l h; cases h))
    | some namelist =>
      refine ⟨namelist, rfl, ?_⟩
      intro hk
      rw [h2 namelist hscan hk] at hrun
      exact absurd hsel (hmsg _ r st' hrun (by intro t o l h; cases h))

/-- The three outcomes of C11 on concrete cards: without a card the browser
reports "SD card was not detected", on a card whose directory is empty it
reports "No files found", both with the result `NULL`; on the card of
`demo_readdir` it presents the list, in which the user cancels. -/
theorem show_file_picker_impl_errors_witness :
    show_file_picker_impl (menu_env [] [] none).toEnv none 2 "Demo".toList "/sdcard/x".toList st0
      = .ok (none, st0.log (.message "Error" (some "SD card was not detected") none " OK ")) ∧
    show_file_picker_impl empty_card_env none 2 "Demo".toList "/sdcard".toList st0
      = .ok (none, st0.log (.message "Error" (some "No files found") none " OK ")) ∧
    show_file_picker_impl (demo_env [0] true true) none 2 "Demo".toList "/sdcard".toList st0
      = .ok (none, st0.log (.selection_list "Demo".toList 1
          (cstr "Sub/\na.vgm\nb.vgm"))) :=
  ⟨(show_file_picker_impl_errors (menu_env [] [] none).toEnv none 1 "Demo".toList
      "/sdcard/x".toList st0).1 (by decide),
   (show_file_picker_impl_errors empty_card_env none 1 "Demo".toList "/sdcard".toList
      st0).2.1 [] (by decide) (by decide),
   ((show_file_picker_impl_errors (demo_env [0] true true) none 1 "Demo".toList
      "/sdcard".toList st0).2.2.1 demo_namelist (by decide) (by decide)).trans (by decide)⟩

/-! ## Cancel in the screens of the menu -/

theorem strlen_total (content r : List Char) : ∃ n, strlen (content ++ NUL :: r) = .ok n := by
  induction content with
  | nil => exact ⟨0, by simp [strlen]⟩
  | cons c cs ih =>
    obtain ⟨n, hn⟩ := ih
    by_cases hc : c = NUL
    · exact ⟨0, by simp [strlen, hc]⟩
    · exact ⟨n + 1, by simp [strlen, hc, hn, Except.map]⟩

theorem find_list_option_cancel (content : List Char) :
    find_list_option (content ++ [NUL]) ((0 : Nat) : Int) = .ok none := by
  obtain ⟨n, hn⟩ := strlen_total content []
  unfold find_list_option
  rw [hn]
  simp [find_list_option_loop]

theorem main_menu_dispatch_zero (env : MenuEnv) (n : Nat) (st : State) :
    main_menu_dispatch env n 0 st = .ok st := by
  have hz : (0 : Nat) ≠ UINT8_MAX := by decide
  simp [main_menu_dispatch, hz]

theorem main_menu_setup_dispatch_zero (env : MenuEnv) (n : Nat) (st : State) :
    main_menu_setup_dispatch env n 0 st = .ok st := by
  have hz : (0 : Nat) ≠ UINT8_MAX := by decide
  simp [main_menu_setup_dispatch, hz]

theorem main_menu_diagnostics_dispatch_zero (env : MenuEnv) (n : Nat) (st : State) :
    main_menu_diagnostics_dispatch env n 0 st = .ok st := by
  have hz : (0 : Nat) ≠ UINT8_MAX := by decide
  simp [main_menu_diagnostics_dispatch, hz]

theorem main_menu_demo_sound_effects_dispatch_zero (st : State) :
    main_menu_demo_sound_effects_dispatch 0 st = st := by
  have hz : (0 : Nat) ≠ UINT8_MAX := by decide
  simp [main_menu_demo_sound_effects_dispatch, hz]

/-- C12: in every screen loop of the menu, when the presentation call returns the
ordinal 0 the loop ends at once: the state it leaves is the state before the
pass with the one presentation call recorded, so that no option handler was
invoked, `menu_timeout` and the other flags are unchanged and the screen was
not presented again.  This holds for the screens with a fixed action table,
`main_menu`, `main_menu_setup`, `main_menu_diagnostics`,
`main_menu_demo_sound_effects`, `setup_rtc_calibration_trim` (which leaves
`*coarse` and `*value` unwritten) and `setup_rtc_calibration`, and for the
list-driven screens `setup_wifi_scan`, `setup_time_zone` and
`setup_time_zone_region` (whose result is then `false`). -/
theorem menu_screens_cancel (env : MenuEnv) (n fuel option : Nat) (st : State)
    (v : TrimVars) (coarse : Bool) (value : Nat)
    (records : List wifi_ap_record_t) (record_count : Nat) (list region content : List Char) :
    (env.display_selection_list st.trace "Main Menu".toList option main_menu_list % 256 = 0 →
      main_menu_loop env n (fuel + 1) option st
        = .ok (st.log (.selection_list "Main Menu".toList option main_menu_list))) ∧
    (env.display_selection_list st.trace "Setup".toList option main_menu_setup_list % 256 = 0 →
      main_menu_setup_loop env n (fuel + 1) option st
        = .ok (st.log (.selection_list "Setup".toList option main_menu_setup_list))) ∧
    (env.display_selection_list st.trace "Diagnostics".toList option
        (cstr "Display Test\nCapacitive Touch\nAmbient Light Sensor\nVolume Adjustment") % 256 = 0 →
      main_menu_diagnostics_loop env n (fuel + 1) option st
        = .ok (st.log (.selection_list "Diagnostics".toList option
            (cstr "Display Test\nCapacitive Touch\nAmbient Light Sensor\nVolume Adjustment")))) ∧
    (env.display_selection_list st.trace "Demo Sound Effects".toList option
        (cstr "Chime\nBlip\nCredit") % 256 = 0 →
      main_menu_demo_sound_effects_loop env (fuel + 1) option st
        = .ok (st.log (.selection_list "Demo Sound Effects".toList option
            (cstr "Chime\nBlip\nCredit")))) ∧
    (env.display_selection_list st.trace "RTC Trim".toList option
        (rtc_trim_list v.coarse_sel v.add_sel v.value_sel) % 256 = 0 →
      setup_rtc_calibration_trim_loop env (fuel + 1) option v st
        = .ok (v, st.log (.selection_list "RTC Trim".toList option
            (rtc_trim_list v.coarse_sel v.add_sel v.value_sel)))) ∧
    (env.display_message st.trace "RTC Calibration\n"
        (some (String.mk (rtc_calibration_buf coarse value)))
        (some (String.mk (rtc_calibration_buf2 coarse value)))
        " Measure \n Trim \n OK \n Cancel " % 256 = 0 →
      setup_rtc_calibration_loop env n (fuel + 1) coarse value st
        = .ok (st.log (rtc_calibration_message coarse value))) ∧
    (env.display_selection_list st.trace "Select Network".toList option list % 256 = 0 →
      setup_wifi_scan_loop env records record_count list (fuel + 1) option st
        = .ok (st.log (.selection_list "Select Network".toList option list))) ∧
    (env.display_selection_list st.trace "Select Region".toList option (content ++ [NUL]) % 256
        = 0 →
      setup_time_zone_loop env n (content ++ [NUL]) (fuel + 1) option st
        = .ok (st.log (.selection_list "Select Region".toList option (content ++ [NUL])))) ∧
    (env.display_selection_list st.trace "Select Zone".toList option (content ++ [NUL]) % 256
        = 0 →
      setup_time_zone_region_loop env region (content ++ [NUL]) (fuel + 1) option st
        = .ok (false, st.log (.selection_list "Select Zone".toList option (content ++ [NUL])))) := by
  have hz : (0 : Nat) ≠ UINT8_MAX := by decide
  refine ⟨?_, ?_, ?_, ?_, ?_, ?_, ?_, ?_, ?_⟩
  · intro hk
    rw [main_menu_loop, main_menu_pass, hk, main_menu_dispatch_zero]
    simp
  · intro hk
    rw [main_menu_setup_loop, main_menu_setup_pass, hk, main_menu_setup_dispatch_zero]
    simp
  · intro hk
    rw [main_menu_diagnostics_loop, main_menu_diagnostics_pass, hk,
      main_menu_diagnostics_dispatch_zero]
    simp
  · intro hk
    rw [main_menu_demo_sound_effects_loop, main_menu_demo_sound_effects_pass, hk,
      main_menu_demo_sound_effects_dispatch_zero]
    simp
  · intro hk
    rw [setup_rtc_calibration_trim_loop, setup_rtc_calibration_trim_pass]
    simp only [hk]
    simp [hz]
  · intro hk
    rw [setup_rtc_calibration_loop, setup_rtc_calibration_pass]
    simp only [hk]
    simp [hz]
  · intro hk
    rw [setup_wifi_scan_loop, setup_wifi_scan_pass, hk]
    simp [hz]
  · intro hk
    rw [setup_time_zone_loop, setup_time_zone_pass, hk, if_neg hz, find_list_option_cancel]
    simp
  · intro hk
    rw [setup_time_zone_region_loop, setup_time_zone_region_pass, hk, if_neg hz,
      find_list_option_cancel]
    simp

/-- Cancel in the main menu and in the screen "RTC Calibration": one
presentation is recorded and the flags are those of `st0`. -/
theorem menu_screens_cancel_witness :
    main_menu_loop (menu_env [0] [] none) 2 2 1 st0
      = .ok (st0.log (.selection_list "Main Menu".toList 1 main_menu_list)) ∧
    setup_rtc_calibration_loop (menu_env [] [0] none) 2 2 false 0 st0
      = .ok (st0.log (rtc_calibration_message false 0)) :=
  ⟨(menu_screens_cancel (menu_env [0] [] none) 2 1 1 st0 ⟨false, 0, false, false, 0⟩ false 0
      [] 0 [] [] []).1 (by decide),
   (menu_screens_cancel (menu_env [] [0] none) 2 1 1 st0 ⟨false, 0, false, false, 0⟩ false 0
      [] 0 [] [] []).2.2.2.2.2.1 (by decide)⟩

/-! ## The timeout flag in the RTC calibration screen -/

/-- C13 (failing input): in the run `trim_timeout_env` the sub-screen
`setup_rtc_calibration_trim` receives the sentinel 255, sets `menu_timeout` and
returns; `setup_rtc_calibration` then presents its screen "RTC Calibration" once
more, after the flag was set and before `main_menu` returns. -/
theorem setup_rtc_calibration_timeout_redraw :
    setup_rtc_calibration_trim trim_timeout_env 3 false 0
        { st0 with trace := trim_timeout_prefix }
      = .ok (false, 0,
          { st0 with
            menu_timeout := true,
            trace := trim_timeout_prefix
              ++ [.selection_list "RTC Trim".toList 1 (rtc_trim_list false false 0)] }) ∧
    main_menu trim_timeout_env 3 st0
      = .ok { st0 with
          menu_timeout := true,
          trace := trim_timeout_prefix
            ++ [.selection_list "RTC Trim".toList 1 (rtc_trim_list false false 0),
                rtc_calibration_message false 0] } := by
  constructor
  · decide
  · decide

/-! ## The Wi-Fi scan screen -/

/-- C16 (failing input): for the scan result `hidden_then_home` the list has the
single line of the network `Home`, which is therefore line 1, and when the user
selects ordinal 1 the record given to `wifi_scan_connect` is `records[0]`, the
hidden network: the prompt shows its empty SSID and its BSSID. -/
theorem setup_wifi_scan_hidden_first :
    setup_wifi_scan_list hidden_then_home 2 = .ok (wifi_scan_label home_record ++ [NUL]) ∧
    find_list_option (wifi_scan_label home_record ++ [NUL]) 1
      = .ok (some (0, (wifi_scan_label home_record).length)) ∧
    hidden_then_home[0]? = some hidden_record ∧
    setup_wifi_scan (menu_env [1, 0] [2] (some hidden_then_home)) 3 st0
      = .ok { st0 with
          trace :=
            [.static_message "Wi-Fi Scan" none (some "\nPlease wait..."),
             .selection_list "Select Network".toList 1 (wifi_scan_label home_record ++ [NUL]),
             wifi_connect_prompt hidden_record,
             .selection_list "Select Network".toList 1 (wifi_scan_label home_record ++ [NUL])] } := by
  refine ⟨by decide, by decide, by decide, by decide⟩

/-! ## The tick handler -/

/-- C14: the tick handler `board_rtc_alarm_func` returns `ESP_OK` in every case
and changes none of the four flags.  While `menu_visible` is set it issues no
display call: what it records is at most the take and the give of the lock.
While `menu_visible` is clear and the conversion of the time succeeds with the
hour `h` and the minute `m`, it issues exactly one call of `display_draw_time`,
with `h`, `m` and the current `time_twentyfour` and `alarm_set`, between the take
and the give of the lock.  When the conversion fails the state is unchanged. -/
theorem board_rtc_alarm_func_isolated (env : MenuEnv) (alarm0 alarm1 : Bool) (time : Int)
    (st : State) :
    (board_rtc_alarm_func env alarm0 alarm1 time st).1 = ESP_OK ∧
    (board_rtc_alarm_func env alarm0 alarm1 time st).2.menu_visible = st.menu_visible ∧
    (board_rtc_alarm_func env alarm0 alarm1 time st).2.alarm_set = st.alarm_set ∧
    (board_rtc_alarm_func env alarm0 alarm1 time st).2.time_twentyfour = st.time_twentyfour ∧
    (board_rtc_alarm_func env alarm0 alarm1 time st).2.menu_timeout = st.menu_timeout ∧
    (st.menu_visible = true →
      (board_rtc_alarm_func env alarm0 alarm1 time st).2.trace
        = st.trace ++ (if (env.localtime_r st.trace time).isSome
            then [.semaphore true, .semaphore false] else [])) ∧
    (st.menu_visible = false → ∀ h m, env.localtime_r st.trace time = some (h, m) →
      (board_rtc_alarm_func env alarm0 alarm1 time st).2.trace
        = st.trace ++ [.semaphore true, .draw_time h m st.time_twentyfour st.alarm_set,
            .semaphore false]) ∧
    (env.localtime_r st.trace time = none →
      (board_rtc_alarm_func env alarm0 alarm1 time st).2 = st) := by
  unfold board_rtc_alarm_func
  cases hl : env.localtime_r st.trace time with
  | none => simp
  | some hm =>
    obtain ⟨h, m⟩ := hm
    cases hv : st.menu_visible <;> simp [State.log, hv]

/-- The tick handler in the two situations of C14: during a menu session it
records the lock only, on the idle face it draws 7:30. -/
theorem board_rtc_alarm_func_isolated_witness :
    (board_rtc_alarm_func (menu_env [] [] none) false false 0 st0).2.trace
      = [.semaphore true, .semaphore false] ∧
    (board_rtc_alarm_func (menu_env [] [] none) false false 0
        { st0 with menu_visible := false }).2.trace
      = [.semaphore true, .draw_time 7 30 false false, .semaphore false] :=
  ⟨(board_rtc_alarm_func_isolated (menu_env [] [] none) false false 0 st0).2.2.2.2.2.1 rfl,
   (board_rtc_alarm_func_isolated (menu_env [] [] none) false false 0
      { st0 with menu_visible := false }).2.2.2.2.2.2.1 rfl 7 30 rfl⟩

/-! ## The menu task -/

/-- The invariant of the locations of `main_menu_task`. -/
theorem main_menu_task_step_inv (env : MenuEnv) (n : Nat) (ts ts1 : TaskLoc × State)
    (hstep : main_menu_task_step env n ts = .ok ts1)
    (hinv : (ts.1 = .idle → ts.2.menu_visible = false) ∧
      (ts.1 = .menu → ts.2.menu_visible = true ∧ ts.2.menu_timeout = false)) :
    (ts1.1 = .idle → ts1.2.menu_visible = false) ∧
      (ts1.1 = .menu → ts1.2.menu_visible = true ∧ ts1.2.menu_timeout = false) := by
  obtain ⟨loc, st⟩ := ts
  cases loc with
  | top =>
    simp only [main_menu_task_step, Except.ok.injEq] at hstep
    subst hstep
    refine ⟨fun _ => ?_, fun h => by cases h⟩
    simp only [main_menu_task_show, State.log]
    split <;> (try split) <;> rfl
  | idle =>
    have hv : st.menu_visible = false := hinv.1 rfl
    simp only [main_menu_task_step] at hstep
    split at hstep
    · simp only [Except.ok.injEq] at hstep
      subst hstep
      exact ⟨fun h => (by cases h), fun h => by cases h⟩
    · rename_i hk
      simp only [Except.ok.injEq] at hstep
      subst hstep
      refine ⟨fun _ => ?_, fun h => by cases h⟩
      simp only [main_menu_task_key, State.log] at hk ⊢
      split
      · split
        · split
          · simp_all
          · split
            · simp_all
            · split
              · simp_all
              · simp_all
        · exact hv
      · exact hv
  | check =>
    simp only [main_menu_task_step] at hstep
    split at hstep
    · rename_i hv
      simp only [Except.ok.injEq] at hstep
      subst hstep
      exact ⟨fun h => (by cases h), fun _ => ⟨hv, rfl⟩⟩
    · simp only [Except.ok.injEq] at hstep
      subst hstep
      exact ⟨fun h => (by cases h), fun h => by cases h⟩
  | menu =>
    simp only [main_menu_task_step] at hstep
    split at hstep
    · cases hstep
    · simp only [Except.ok.injEq] at hstep
      subst hstep
      exact ⟨fun h => (by cases h), fun h => by cases h⟩

theorem main_menu_task_run_inv (env : MenuEnv) (n k : Nat) (ts ts1 : TaskLoc × State)
    (hrun : main_menu_task_run env n k ts = .ok ts1)
    (hinv : (ts.1 = .idle → ts.2.menu_visible = false) ∧
      (ts.1 = .menu → ts.2.menu_visible = true ∧ ts.2.menu_timeout = false)) :
    (ts1.1 = .idle → ts1.2.menu_visible = false) ∧
      (ts1.1 = .menu → ts1.2.menu_visible = true ∧ ts1.2.menu_timeout = false) := by
  induction k generalizing ts with
  | zero =>
    simp only [main_menu_task_run, Except.ok.injEq] at hrun
    subst hrun
    exact hinv
  | succ k ih =>
    simp only [main_menu_task_run] at hrun
    cases hs : main_menu_task_step env n ts with
    | error e => rw [hs] at hrun; cases hrun
    | ok ts2 =>
      rw [hs] at hrun
      exact ih ts2 hrun (main_menu_task_step_inv env n ts ts2 hs hinv)

theorem main_menu_task_show_trace (env : MenuEnv) (st : State) :
    (main_menu_task_show env st).menu_visible = false ∧
    ∃ added, (main_menu_task_show env st).trace = st.trace ++ added ∧
      ∀ e ∈ added, ∀ t, e ≠ Event.keypad_wait t := by
  simp only [main_menu_task_show, State.log]
  split
  · split
    · refine ⟨rfl, _, by simp only [List.append_assoc]; rfl, ?_⟩
      intro e he t
      simp at he
      rcases he with h | h | h | h <;> (subst h; intro hc; cases hc)
    · refine ⟨rfl, _, by simp only [List.append_assoc]; rfl, ?_⟩
      intro e he t
      simp at he
      rcases he with h | h | h <;> (subst h; intro hc; cases hc)
  · refine ⟨rfl, _, by simp only [List.append_assoc]; rfl, ?_⟩
    intro e he t
    simp at he
    rcases he with h | h | h <;> (subst h; intro hc; cases hc)

/-- C15: the reachable states of the step relation of `main_menu_task`.  In every
state reached from the start of the task, the idle location (blocked in the wait
for a key, no screen active) has `menu_visible` clear, and the location of the
call of `main_menu` has `menu_visible` set and `menu_timeout` reset.  A key is
read at the idle location only, and `main_menu` runs at its own location only.
When `main_menu` returns, with whatever state `st1`, the task is at the idle
location two steps later, `menu_visible` is clear again, and no key was read in
between: what was recorded after the return contains no wait for a key. -/
theorem main_menu_task_invariant (env : MenuEnv) (n : Nat) :
    (∀ k st loc st1, main_menu_task_run env n k (.top, st) = .ok (loc, st1) →
      (loc = .idle → st1.menu_visible = false) ∧
      (loc = .menu → st1.menu_visible = true ∧ st1.menu_timeout = false)) ∧
    (∀ st st1, main_menu env n st = .ok st1 →
      main_menu_task_run env n 2 (.menu, st) = .ok (.idle, main_menu_task_show env st1) ∧
      (main_menu_task_show env st1).menu_visible = false ∧
      ∃ added, (main_menu_task_show env st1).trace = st1.trace ++ added ∧
        ∀ e ∈ added, ∀ t, e ≠ Event.keypad_wait t) := by
  constructor
  · intro k st loc st1 hrun
    exact main_menu_task_run_inv env n k (.top, st) (loc, st1) hrun
      ⟨fun h => (by cases h), fun h => by cases h⟩
  · intro st st1 hmenu
    refine ⟨?_, main_menu_task_show_trace env st1⟩
    simp [main_menu_task_run, main_menu_task_step, hmenu]

/-- Two runs of the task.  From the start, the idle face is drawn, the button A
opens the menu, the user cancels it, and five steps in the task is idle again
with `menu_visible` clear.  In the run `trim_timeout_env`, in which the menu ends
through nested timeouts, the task is idle two steps after the call of
`main_menu`, with `menu_visible` clear. -/
theorem main_menu_task_invariant_witness :
    (main_menu_task_run (menu_env [0] [] none) 2 5 (.top, st0) = .ok (.idle, idle_again) ∧
      idle_again.menu_visible = false) ∧
    (main_menu_task_run trim_timeout_env 3 2 (.menu, st0)
        = .ok (.idle, main_menu_task_show trim_timeout_env trim_timeout_final) ∧
      (main_menu_task_show trim_timeout_env trim_timeout_final).menu_visible = false) :=
  ⟨⟨by decide,
    ((main_menu_task_invariant (menu_env [0] [] none) 2).1 5 st0 .idle idle_again
      (by decide)).1 rfl⟩,
   ⟨((main_menu_task_invariant trim_timeout_env 3).2 st0 trim_timeout_final (by decide)).1,
    ((main_menu_task_invariant trim_timeout_env 3).2 st0 trim_timeout_final (by decide)).2.1⟩⟩

/-! ## Buffers of fixed size in the menu screens -/

/-- The `sprintf` of `wifi_scan_connect` writes 18 bytes for the two example
records, one more than `bssid[17]` holds. -/
theorem wifi_scan_bssid_size_example :
    wifi_scan_bssid_size hidden_record.bssid = 18 ∧
    wifi_scan_bssid_size home_record.bssid = 18 := by
  decide

/-- A region label of 32 bytes or more does not fit `region[32]`: the pass of
`setup_time_zone` that selects it faults. -/
theorem setup_time_zone_pass_overrun (env : MenuEnv) (n : Nat) (region_list : List Char)
    (option : Nat) (st : State) (value length : Nat)
    (hne : env.display_selection_list st.trace "Select Region".toList option region_list % 256
      ≠ UINT8_MAX)
    (hfind : find_list_option region_list
      (env.display_selection_list st.trace "Select Region".toList option region_list % 256 : Nat)
      = .ok (some (value, length)))
    (hlen : 32 ≤ length) :
    setup_time_zone_pass env n region_list option st = .error .oob := by
  rw [setup_time_zone_pass, if_neg hne, hfind]
  simp [hlen]

/-- A zone name that, with the region and the `'/'`, needs more than 128 bytes
does not fit `zone[128]`: the pass of `setup_time_zone_region` that selects it
faults. -/
theorem setup_time_zone_region_pass_overrun (env : MenuEnv) (region zone_list : List Char)
    (option : Nat) (st : State) (value length : Nat)
    (hne : env.display_selection_list st.trace "Select Zone".toList option zone_list % 256
      ≠ UINT8_MAX)
    (hfind : find_list_option zone_list
      (env.display_selection_list st.trace "Select Zone".toList option zone_list % 256 : Nat)
      = .ok (some (value, length)))
    (hlen : 128 < region.length + 1 + length + 1) :
    setup_time_zone_region_pass env region zone_list option st = .error .oob := by
  rw [setup_time_zone_region_pass, if_neg hne, hfind]
  simp [hlen]

end Nestronic
